import Mathlib

/-!
Shallow embedding of the astrological computation pipeline of
server.py (repository terminos), together with theorems checking the
specified properties of its components.

Real-valued quantities (ecliptic longitudes in degrees, daily motion,
the ayanamsa) are modelled as rationals.  Python's float modulo
operator x % 360 is modelled by pmod360, which for a positive modulus
agrees with Python's semantics (result in [0, 360), floor division).
The external ephemeris provider, the sidereal-time/house provider and
the geocoder are out of scope and enter as parameters.
-/

/-! ## Python-style modulo on rationals -/

/-- Python's x % y for rationals (y positive): x - y * floor (x / y).
Uses the computable Rat.floor so that concrete charts evaluate. -/
def pymod (x y : ℚ) : ℚ := x - y * ((x / y).floor : ℚ)

/-- Python's x % 360, as used throughout server.py to normalize longitudes. -/
def pmod360 (x : ℚ) : ℚ := pymod x 360

/-! ## Zodiac partition (get_sign, server.py lines 1170-1198) -/

/-- The 14-arc zodiac table of get_sign: (name, start degree, width). -/
def signsTable : List (String × ℚ × ℚ) :=
  [("ARIES", 354, 36),
   ("TAURO", 30, 30),
   ("GÉMINIS", 60, 30),
   ("CÁNCER", 90, 30),
   ("LEO", 120, 30),
   ("VIRGO", 150, 36),
   ("LIBRA", 186, 24),
   ("ESCORPIO", 210, 30),
   ("OFIUCO", 240, 12),
   ("SAGITARIO", 252, 18),
   ("CAPRICORNIO", 270, 36),
   ("ACUARIO", 306, 18),
   ("PEGASO", 324, 6),
   ("PISCIS", 330, 24)]

/-- The per-entry test of the resolution loop of get_sign: the direct
interval test start <= longitude < start + width, and the explicit
wraparound test, which additionally requires start > 354. -/
def arcTest (l : ℚ) (e : String × ℚ × ℚ) : Bool :=
  decide (e.2.1 ≤ l ∧ l < e.2.1 + e.2.2) ||
    (decide (354 < e.2.1) && (decide (e.2.1 ≤ l) || decide (l < pmod360 (e.2.1 + e.2.2))))

/-- The resolution loop of get_sign, with the deterministic default. -/
def get_sign_go (l : ℚ) : List (String × ℚ × ℚ) → String
  | [] => "ARIES"
  | e :: rest => if arcTest l e then e.1 else get_sign_go l rest

/-- get_sign: coerce the longitude into [0, 360) and resolve it in the table. -/
def get_sign (longitude : ℚ) : String := get_sign_go (pmod360 longitude) signsTable

/-! ## Dignity table (DIGNIDADES and calcular_dignidad_planetaria) -/

/-- One row of the DIGNIDADES table: the four sign-sets of a body. -/
structure DignRow where
  domicilio : List String
  exaltacion : List String
  caida : List String
  exilio : List String
  deriving DecidableEq, Repr

/-- The DIGNIDADES dictionary of server.py lines 85-146. -/
def DIGNIDADES : List (String × DignRow) :=
  [("SOL", ⟨["ESCORPIO", "GÉMINIS", "PEGASO"],
            ["LEO", "ARIES", "CAPRICORNIO", "VIRGO"],
            ["CÁNCER", "PISCIS", "LIBRA", "ACUARIO", "OFIUCO"],
            ["TAURO", "SAGITARIO"]⟩),
   ("LUNA", ⟨["TAURO", "SAGITARIO"],
             ["CÁNCER", "PISCIS", "LIBRA", "ACUARIO", "OFIUCO"],
             ["LEO", "ARIES", "CAPRICORNIO", "VIRGO"],
             ["ESCORPIO", "GÉMINIS", "PEGASO"]⟩),
   ("MERCURIO", ⟨["LEO", "ARIES", "ESCORPIO", "PEGASO"],
                 ["GÉMINIS", "CAPRICORNIO", "VIRGO"],
                 ["TAURO", "LIBRA", "ACUARIO", "OFIUCO"],
                 ["CÁNCER", "PISCIS", "SAGITARIO"]⟩),
   ("VENUS", ⟨["CÁNCER", "PISCIS", "SAGITARIO"],
              ["TAURO", "LIBRA", "ACUARIO", "OFIUCO"],
              ["GÉMINIS", "CAPRICORNIO", "VIRGO"],
              ["LEO", "ARIES", "ESCORPIO", "PEGASO"]⟩),
   ("MARTE", ⟨["GÉMINIS", "CAPRICORNIO", "VIRGO"],
              ["LEO", "ARIES", "ESCORPIO", "PEGASO"],
              ["CÁNCER", "PISCIS", "SAGITARIO"],
              ["TAURO", "LIBRA", "ACUARIO", "OFIUCO"]⟩),
   ("JÚPITER", ⟨["TAURO", "LIBRA", "ACUARIO", "OFIUCO"],
                ["CÁNCER", "PISCIS", "SAGITARIO"],
                ["LEO", "ARIES", "ESCORPIO", "PEGASO"],
                ["GÉMINIS", "CAPRICORNIO", "VIRGO"]⟩),
   ("SATURNO", ⟨["LEO", "ARIES", "LIBRA", "ACUARIO"],
                ["OFIUCO", "GÉMINIS", "SAGITARIO"],
                ["TAURO", "ESCORPIO", "PEGASO"],
                ["CÁNCER", "PISCIS", "CAPRICORNIO", "VIRGO"]⟩),
   ("URANO", ⟨["LEO", "ARIES", "ESCORPIO", "PEGASO"],
              ["GÉMINIS", "CAPRICORNIO", "VIRGO"],
              ["TAURO", "LIBRA", "ACUARIO", "OFIUCO"],
              ["CÁNCER", "PISCIS", "SAGITARIO"]⟩),
   ("NEPTUNO", ⟨["TAURO", "LIBRA", "ACUARIO", "OFIUCO"],
                ["CÁNCER", "PISCIS", "SAGITARIO"],
                ["LEO", "ARIES", "ESCORPIO", "PEGASO"],
                ["GÉMINIS", "CAPRICORNIO", "VIRGO"]⟩),
   ("PLUTÓN", ⟨["GÉMINIS", "CAPRICORNIO", "VIRGO"],
               ["LEO", "ARIES", "ESCORPIO", "PEGASO"],
               ["CÁNCER", "PISCIS", "SAGITARIO"],
               ["TAURO", "LIBRA", "ACUARIO", "OFIUCO"]⟩)]

/-- calcular_dignidad_planetaria (server.py lines 1151-1168). -/
def calcular_dignidad_planetaria (planeta signo : String) : String :=
  match DIGNIDADES.lookup planeta with
  | some d =>
    if signo ∈ d.domicilio then "domicilio"
    else if signo ∈ d.exaltacion then "exaltacion"
    else if signo ∈ d.caida then "caida"
    else if signo ∈ d.exilio then "exilio"
    else "peregrino"
  | none => "peregrino"

/-! ## Ayanamsa (calculate_fagan_allen_ayanamsa, server.py lines 62-82) -/

/-- calculate_fagan_allen_ayanamsa, as a function of the signed number of
seconds between the given UTC instant and J2000.0 (2000-01-01T12:00:00Z),
which is what the Python code computes with total_seconds(). -/
def calculate_fagan_allen_ayanamsa (secondsSinceJ2000 : ℚ) : ℚ :=
  let years_since_j2000 := secondsSinceJ2000 / ((36525 / 100) * 24 * 60 * 60)
  24 + (1397 / 100000) * years_since_j2000

/-! ## House number and diurnal test (server.py lines 1200-1215) -/

/-- get_house_number.  Python's int() truncates toward zero; the argument
diff / 30 is nonnegative because pmod360 lands in [0, 360), so truncation
agrees with Rat.floor. -/
def get_house_number (longitude asc_longitude : ℚ) : ℤ :=
  let diff := pmod360 (longitude - asc_longitude)
  let house := 1 + (diff / 30).floor
  if house > 12 then house - 12 else house

/-- is_dry_birth: the Sun's house relative to the Ascendant, computed with
the same formula as get_house_number but without the above-12 clipping,
and the test house ∈ [7, 12]. -/
def is_dry_birth (sol_longitude asc_longitude : ℚ) : Bool :=
  let diff := pmod360 (sol_longitude - asc_longitude)
  let house := 1 + (diff / 30).floor
  decide (7 ≤ house ∧ house ≤ 12)

/-! ## Aspect engine helpers (server.py lines 1220-1373) -/

/-- calculate_angle, the pairwise separation of the aspect engine. -/
def calculate_angle (pos1 pos2 : ℚ) : ℚ :=
  let diff := pmod360 |pos1 - pos2|
  if diff > 180 then 360 - diff else diff

/-- determine_aspect_type, the tiered orb-2 classification. -/
def determine_aspect_type (angle : ℚ) : Option String :=
  let orb : ℚ := 2
  if |angle| ≤ orb ∨ |angle - 60| ≤ orb ∨ |angle - 120| ≤ orb ∨ |angle - 180| ≤ orb then
    some "Armónico Relevante"
  else if |angle - 30| ≤ orb ∨ |angle - 90| ≤ orb ∨ |angle - 150| ≤ orb then
    some "Inarmónico Relevante"
  else if ∃ a ∈ ([12, 24, 36, 48, 72, 84, 96, 108, 132, 144, 156, 168] : List ℚ),
      |angle - a| ≤ orb then
    some "Armónico"
  else if ∃ a ∈ ([6, 18, 42, 54, 66, 78, 102, 114, 126, 138, 162, 174] : List ℚ),
      |angle - a| ≤ orb then
    some "Inarmónico"
  else none

/-- Python's round() on a rational: round half to even. -/
def pyRound (q : ℚ) : ℤ :=
  let f := q.floor
  let frac := q - (f : ℚ)
  if frac < 1 / 2 then f
  else if 1 / 2 < frac then f + 1
  else if f % 2 = 0 then f else f + 1

/-- get_aspect_key (server.py lines 1316-1360). -/
def get_aspect_key (angle : ℚ) : String :=
  let a := pyRound angle
  if a ≤ 2 then "CONJUNCTION"
  else if 58 ≤ a ∧ a ≤ 62 then "SEXTILE"
  else if 88 ≤ a ∧ a ≤ 92 then "SQUARE"
  else if 118 ≤ a ∧ a ≤ 122 then "TRINE"
  else if 178 ≤ a ∧ a ≤ 180 then "OPPOSITION"
  else if a = 6 then "SEIS"
  else if a = 12 then "DOCE"
  else if a = 18 then "DIECIOCHO"
  else if a = 24 then "VEINTICUATRO"
  else if a = 30 then "TREINTA"
  else if a = 36 then "TREINTAYSEIS"
  else if a = 42 then "CUARENTAYDOS"
  else if a = 48 then "CUARENTAYOCHO"
  else if a = 54 then "CICUENTAYCUATRO"
  else if a = 66 then "SESENTAYSEIS"
  else if a = 72 then "QUINTILE"
  else if a = 78 then "SETENTAYOCHO"
  else if a = 84 then "OCHENTAYCUATRO"
  else if a = 96 then "NOVENTAYSEIS"
  else if a = 102 then "CIENTODOS"
  else if a = 108 then "CIENTOOCHO"
  else if a = 114 then "CIENTOCATORCE"
  else if a = 126 then "CIENTOVEINTISEIS"
  else if a = 132 then "CIENTOTREINTAYDOS"
  else if a = 138 then "CIENTOTREINTAYOCHO"
  else if a = 144 then "CIENTOCUARENTAYCUATRO"
  else if a = 150 then "QUINCUNX"
  else if a = 156 then "CIENTOCINCUENTAYSEIS"
  else if a = 162 then "CIENTOSESENTAYDOS"
  else if a = 168 then "CIENTOSESENTAYOCHO"
  else if a = 174 then "CIENTOSETENTAYCUATRO"
  else "ANGLE_" ++ toString a

/-- get_aspect_color (server.py lines 1362-1373). -/
def get_aspect_color (aspect_type : String) : String :=
  if aspect_type = "Armónico Relevante" then "#000080"
  else if aspect_type = "Inarmónico Relevante" then "#FF0000"
  else if aspect_type = "Armónico" then "#ADD8E6"
  else if aspect_type = "Inarmónico" then "#ffff00"
  else "#888888"

/-! ## Historical DST resolver (determinar_horario_verano, lines 499-576) -/

/-- Lower-casing of a string, as Python str.lower on the country name. -/
def strLower (s : String) : String := String.mk (s.data.map Char.toLower)

/-- Bool test that the second character list starts with the first. -/
def leadsWith : List Char → List Char → Bool
  | [], _ => true
  | _ :: _, [] => false
  | a :: as, b :: bs => a == b && leadsWith as bs

/-- Bool test that the second list has the first as a contiguous subsequence. -/
def containsSeq (pat : List Char) : List Char → Bool
  | [] => leadsWith pat []
  | c :: cs => leadsWith pat (c :: cs) || containsSeq pat cs

/-- Python's substring membership test pat in s. -/
def strContains (s pat : String) : Bool := containsSeq pat.data s.data

/-- determinar_horario_verano.  The date arrives split into year, month and
day; hemisferio is the string "norte" or "sur" computed by the caller from
the latitude; pais is the country field of the geocoder response. -/
def determinar_horario_verano (anio mes dia : ℤ) (hemisferio pais0 : String) : Bool :=
  let pais := strLower pais0
  if strContains pais "spain" || strContains pais "españa" then
    if anio < 1974 then false
    else if 1974 ≤ anio ∧ anio ≤ 1975 then
      decide ((4 < mes ∧ mes < 10) ∨ (mes = 4 ∧ 13 ≤ dia) ∨ (mes = 10 ∧ dia ≤ 6))
    else if 1976 ≤ anio ∧ anio ≤ 1996 then
      decide (3 < mes ∧ mes < 10)
    else
      decide ((3 < mes ∧ mes < 10) ∨ (mes = 3 ∧ 25 ≤ dia) ∨ (mes = 10 ∧ dia ≤ 25))
  else if hemisferio == "norte" then
    if anio < 1970 then false
    else
      decide ((3 < mes ∧ mes < 10) ∨ (mes = 3 ∧ 25 ≤ dia) ∨ (mes = 10 ∧ dia ≤ 25))
  else
    if ["australia", "new zealand", "nueva zelanda", "chile", "paraguay"].any
        (fun c => strContains pais c) then
      decide ((mes < 3 ∨ 10 < mes) ∨ (mes = 3 ∧ dia ≤ 25) ∨ (mes = 10 ∧ 25 ≤ dia))
    else false

/-! ## Position records and the chart pipeline (calculate_positions_with_utc) -/

/-- One position dictionary of the response.  Keys that the Python code
only sometimes adds are Options. -/
structure Position where
  name : String
  longitude : ℚ
  sign : String
  motion_status : String
  dignidad : Option String := none
  daily_motion : Option ℚ := none
  tropical_longitude : Option ℚ := none
  tropical_sign : Option String := none
  deriving DecidableEq, Repr

/-- The ten tracked bodies of the bodies dictionary (lines 643-654). -/
def BODIES : List String :=
  ["SOL", "LUNA", "MERCURIO", "VENUS", "MARTE", "JÚPITER", "SATURNO",
   "URANO", "NEPTUNO", "PLUTÓN"]

/-- Motion-state classification of lines 699-719, applied to the two
wraparound-folded signed daily deltas.  The Sun and Moon are excluded
and keep the default "direct". -/
def motionStatus (body_name : String) (daily_motion_before daily_motion_after : ℚ) : String :=
  if body_name = "SOL" ∨ body_name = "LUNA" then "direct"
  else
    let s :=
      if daily_motion_before < 0 ∧ daily_motion_after < 0 then "retrograde"
      else if 0 ≤ daily_motion_before ∧ daily_motion_after < 0 then "stationary_retrograde"
      else if daily_motion_before < 0 ∧ 0 ≤ daily_motion_after then "stationary_direct"
      else "direct"
    if |daily_motion_before| < 1 / 10 ∨ |daily_motion_after| < 1 / 10 then
      if s = "retrograde" then "stationary_retrograde"
      else if s = "direct" then "stationary_direct"
      else s
    else s

/-- The sidereal correction applied to a longitude when sidereal mode is
active: (x - ayanamsa + 360) % 360, the identity otherwise. -/
def sidCorrect (use_sidereal : Bool) (ayanamsa x : ℚ) : ℚ :=
  if use_sidereal then pmod360 (x - ayanamsa + 360) else x

/-- The wraparound fold of a raw daily difference (lines 691-697): a
difference above 180 degrees is shifted down by 360. -/
def foldDelta (d : ℚ) : ℚ := if d > 180 then d - 360 else d

/-- Per-body processing of the loop of lines 656-742.  raw packs the
ephemeris provider's longitudes at t, t-1day and t+1day. -/
def processBody (use_sidereal : Bool) (ayanamsa : ℚ) (body_name : String)
    (raw : ℚ × ℚ × ℚ) : Position :=
  let tropical_longitude := pmod360 raw.1
  let longitude := sidCorrect use_sidereal ayanamsa (pmod360 raw.1)
  let longitude_before := sidCorrect use_sidereal ayanamsa (pmod360 raw.2.1)
  let longitude_after := sidCorrect use_sidereal ayanamsa (pmod360 raw.2.2)
  let daily_motion_before := foldDelta (pmod360 (longitude - longitude_before))
  let daily_motion_after := foldDelta (pmod360 (longitude_after - longitude))
  let sign := get_sign longitude
  { name := body_name
    longitude := longitude
    sign := sign
    motion_status := motionStatus body_name daily_motion_before daily_motion_after
    dignidad := some (calcular_dignidad_planetaria body_name sign)
    daily_motion := some ((daily_motion_before + daily_motion_after) / 2)
    tropical_longitude := if use_sidereal then some tropical_longitude else none
    tropical_sign := if use_sidereal then some (get_sign tropical_longitude) else none }

/-- An ASC/MC/DSC/IC entry: always direct, tropical fields only in
sidereal mode (lines 756-787). -/
def anglePosition (use_sidereal : Bool) (name : String) (lon tropical : ℚ) : Position :=
  { name := name
    longitude := lon
    sign := get_sign lon
    motion_status := "direct"
    tropical_longitude := if use_sidereal then some tropical else none
    tropical_sign := if use_sidereal then some (get_sign tropical) else none }

/-- A Part of Fortune / Part of Spirit entry (lines 818-830): these are
appended without tropical fields in either mode. -/
def partPosition (name : String) (lon : ℚ) : Position :=
  { name := name
    longitude := lon
    sign := get_sign lon
    motion_status := "direct" }

/-- calculate_positions_with_utc after the ephemeris calls.  ephem is the
provider treated as a black box; asc0 and mc0 are the tropical angles
returned by calculate_asc_mc; hasCoords tells whether lat and lon were
given; ayanamsa is calculate_fagan_allen_ayanamsa of the instant. -/
def calculate_positions_with_utc (use_sidereal : Bool) (ayanamsa : ℚ)
    (ephem : String → ℚ × ℚ × ℚ) (hasCoords : Bool) (asc0 mc0 : ℚ) : List Position :=
  let positions := BODIES.map (fun n => processBody use_sidereal ayanamsa n (ephem n))
  if hasCoords then
    let tropical_asc := asc0
    let tropical_mc := mc0
    let asc := if use_sidereal then pmod360 (asc0 - ayanamsa + 360) else asc0
    let mc := if use_sidereal then pmod360 (mc0 - ayanamsa + 360) else mc0
    let positions := positions ++
      [anglePosition use_sidereal "ASC" asc tropical_asc,
       anglePosition use_sidereal "MC" mc tropical_mc,
       anglePosition use_sidereal "DSC" (pmod360 (asc + 180)) (pmod360 (tropical_asc + 180)),
       anglePosition use_sidereal "IC" (pmod360 (mc + 180)) (pmod360 (tropical_mc + 180))]
    match positions.find? (fun p => p.name == "SOL"),
        positions.find? (fun p => p.name == "LUNA") with
    | some sol_planet, some luna_planet =>
      let is_dry := is_dry_birth sol_planet.longitude asc
      let parte_fortuna :=
        if is_dry then pmod360 (asc + pmod360 (luna_planet.longitude - sol_planet.longitude))
        else pmod360 (asc + pmod360 (sol_planet.longitude - luna_planet.longitude))
      let parte_espiritu :=
        if is_dry then pmod360 (asc + pmod360 (sol_planet.longitude - luna_planet.longitude))
        else pmod360 (asc + pmod360 (luna_planet.longitude - sol_planet.longitude))
      positions ++ [partPosition "PARTE_FORTUNA" parte_fortuna,
                    partPosition "PARTE_ESPIRITU" parte_espiritu]
    | _, _ => positions
  else positions

/-! ## Simulated fallback path (calculate_positions_simulated, lines 838-1114) -/

/-- base_positions: approximate longitudes at J2000 (lines 848-859). -/
def base_positions : List (String × ℚ) :=
  [("SOL", 279), ("LUNA", 134), ("MERCURIO", 268), ("VENUS", 285), ("MARTE", 94),
   ("JÚPITER", 316), ("SATURNO", 223), ("URANO", 312), ("NEPTUNO", 295), ("PLUTÓN", 232)]

/-- daily_rates: mean daily motions (lines 862-873). -/
def daily_rates : List (String × ℚ) :=
  [("SOL", 9856 / 10000), ("LUNA", 131764 / 10000), ("MERCURIO", 40923 / 10000),
   ("VENUS", 16021 / 10000), ("MARTE", 5240 / 10000), ("JÚPITER", 830 / 10000),
   ("SATURNO", 334 / 10000), ("URANO", 117 / 10000), ("NEPTUNO", 60 / 10000),
   ("PLUTÓN", 40 / 10000)]

/-- retro_cycles: synodic cycle lengths in days (lines 876-885). -/
def retro_cycles : List (String × ℚ) :=
  [("MERCURIO", 116), ("VENUS", 584), ("MARTE", 780), ("JÚPITER", 399),
   ("SATURNO", 378), ("URANO", 369), ("NEPTUNO", 367), ("PLUTÓN", 366)]

/-- retro_duration: lengths of the retrograde windows in days (lines 888-897). -/
def retro_duration : List (String × ℚ) :=
  [("MERCURIO", 22), ("VENUS", 42), ("MARTE", 80), ("JÚPITER", 120),
   ("SATURNO", 140), ("URANO", 155), ("NEPTUNO", 158), ("PLUTÓN", 160)]

/-- The periodic retrograde-window model of lines 909-925. -/
def simulatedMotionStatus (planet_name : String) (days_since_j2000 : ℚ) : String :=
  match retro_cycles.lookup planet_name, retro_duration.lookup planet_name with
  | some cycle, some duration =>
    if planet_name = "SOL" ∨ planet_name = "LUNA" then "direct"
    else
      let cycle_phase := pymod days_since_j2000 cycle / cycle
      if |cycle_phase - 1 / 2| * cycle ≤ duration / 2 then "retrograde"
      else if |cycle_phase - (1 / 2 - duration / (2 * cycle))| * cycle ≤ 3 then
        "stationary_retrograde"
      else if |cycle_phase - (1 / 2 + duration / (2 * cycle))| * cycle ≤ 3 then
        "stationary_direct"
      else "direct"
  | _, _ => "direct"

/-- One planet of the simulated path (lines 904-948). -/
def simulatedPlanet (use_sidereal : Bool) (ayanamsa days_since_j2000 : ℚ)
    (planet_name : String) (base_pos : ℚ) : Position :=
  let rate := (daily_rates.lookup planet_name).getD 0
  let longitude0 := pmod360 (base_pos + rate * days_since_j2000)
  let tropical_longitude := longitude0
  let longitude := if use_sidereal then pmod360 (longitude0 - ayanamsa + 360) else longitude0
  let sign := get_sign longitude
  { name := planet_name
    longitude := longitude
    sign := sign
    motion_status := simulatedMotionStatus planet_name days_since_j2000
    dignidad := some (calcular_dignidad_planetaria planet_name sign)
    tropical_longitude := if use_sidereal then some tropical_longitude else none
    tropical_sign := if use_sidereal then some (get_sign tropical_longitude) else none }

/-- calculate_positions_simulated after the closed-form angle formulas.
asc0 and mc0 stand for the trigonometric asc and mc of lines 953-982,
which involve transcendental functions and are treated as inputs. -/
def calculate_positions_simulated (use_sidereal : Bool) (ayanamsa days_since_j2000 : ℚ)
    (hasCoords : Bool) (asc0 mc0 : ℚ) : List Position :=
  let positions := base_positions.map
    (fun e => simulatedPlanet use_sidereal ayanamsa days_since_j2000 e.1 e.2)
  if hasCoords then
    let asc := if use_sidereal then pmod360 (asc0 - ayanamsa + 360) else asc0
    let mc := if use_sidereal then pmod360 (mc0 - ayanamsa + 360) else mc0
    let positions := positions ++
      [anglePosition use_sidereal "ASC" asc asc0,
       anglePosition use_sidereal "MC" mc mc0,
       anglePosition use_sidereal "DSC" (pmod360 (asc + 180)) (pmod360 (asc0 + 180)),
       anglePosition use_sidereal "IC" (pmod360 (mc + 180)) (pmod360 (mc0 + 180))]
    match positions.find? (fun p => p.name == "SOL"),
        positions.find? (fun p => p.name == "LUNA") with
    | some sol_planet, some luna_planet =>
      let is_dry := is_dry_birth sol_planet.longitude asc
      let parte_fortuna :=
        if is_dry then pmod360 (asc + pmod360 (luna_planet.longitude - sol_planet.longitude))
        else pmod360 (asc + pmod360 (sol_planet.longitude - luna_planet.longitude))
      let parte_espiritu :=
        if is_dry then pmod360 (asc + pmod360 (sol_planet.longitude - luna_planet.longitude))
        else pmod360 (asc + pmod360 (luna_planet.longitude - sol_planet.longitude))
      positions ++ [partPosition "PARTE_FORTUNA" parte_fortuna,
                    partPosition "PARTE_ESPIRITU" parte_espiritu]
    | _, _ => positions
  else positions

/-- The hard-coded last-resort position list (lines 1097-1114). -/
def fallback_positions : List Position :=
  [{ name := "SOL", longitude := 120, sign := "LEO", motion_status := "direct",
     dignidad := some "exaltacion" },
   { name := "LUNA", longitude := 186, sign := "LIBRA", motion_status := "direct",
     dignidad := some "exaltacion" },
   { name := "MERCURIO", longitude := 135, sign := "LEO", motion_status := "direct",
     dignidad := some "domicilio" },
   { name := "VENUS", longitude := 90, sign := "CÁNCER", motion_status := "direct",
     dignidad := some "domicilio" },
   { name := "MARTE", longitude := 210, sign := "ESCORPIO", motion_status := "retrograde",
     dignidad := some "exaltacion" },
   { name := "JÚPITER", longitude := 270, sign := "CAPRICORNIO", motion_status := "direct",
     dignidad := some "exilio" },
   { name := "SATURNO", longitude := 330, sign := "PISCIS", motion_status := "retrograde",
     dignidad := some "exilio" },
   { name := "URANO", longitude := 30, sign := "TAURO", motion_status := "direct",
     dignidad := some "caida" },
   { name := "NEPTUNO", longitude := 354, sign := "ARIES", motion_status := "retrograde",
     dignidad := some "caida" },
   { name := "PLUTÓN", longitude := 252, sign := "SAGITARIO", motion_status := "direct",
     dignidad := some "caida" },
   { name := "ASC", longitude := 0, sign := "ARIES", motion_status := "direct" },
   { name := "MC", longitude := 270, sign := "CAPRICORNIO", motion_status := "direct" },
   { name := "DSC", longitude := 180, sign := "LIBRA", motion_status := "direct" },
   { name := "IC", longitude := 90, sign := "CÁNCER", motion_status := "direct" },
   { name := "PARTE_FORTUNA", longitude := 306, sign := "ACUARIO", motion_status := "direct" },
   { name := "PARTE_ESPIRITU", longitude := 60, sign := "GÉMINIS", motion_status := "direct" }]

/-- The sidereal-corrected Ascendant or Midheaven value of the pipeline. -/
def ascVal (u : Bool) (a a0 : ℚ) : ℚ := if u then pmod360 (a0 - a + 360) else a0

def parteFortunaVal (sol luna asc : ℚ) : ℚ :=
  if is_dry_birth sol asc then pmod360 (asc + pmod360 (luna - sol))
  else pmod360 (asc + pmod360 (sol - luna))

def parteEspirituVal (sol luna asc : ℚ) : ℚ :=
  if is_dry_birth sol asc then pmod360 (asc + pmod360 (sol - luna))
  else pmod360 (asc + pmod360 (luna - sol))

/-- Membership of a longitude in the [0, 360) portion of an arc of the
table, reading a (start, width) arc that overflows 360 as wrapping around
to [0, start + width - 360). -/
def inArc (l : ℚ) (e : String × ℚ × ℚ) : Prop :=
  (e.2.1 ≤ l ∧ l < e.2.1 + e.2.2) ∨ (360 < e.2.1 + e.2.2 ∧ l < e.2.1 + e.2.2 - 360)

/-! ## Lemmas about pmod360 -/

lemma ratFloor_eq_floor (q : ℚ) : q.floor = ⌊q⌋ := by
  rw [Rat.floor_def', Rat.floor_def]

lemma pymod_def (x y : ℚ) : pymod x y = x - y * (⌊x / y⌋ : ℚ) := by
  rw [pymod, ratFloor_eq_floor]

lemma pmod360_def (x : ℚ) : pmod360 x = x - 360 * (⌊x / 360⌋ : ℚ) := by
  rw [pmod360, pymod_def]

lemma pmod360_nonneg (x : ℚ) : 0 ≤ pmod360 x := by
  rw [pmod360_def]
  have h := Int.sub_floor_div_mul_nonneg x (by norm_num : (0:ℚ) < 360)
  linarith [h]

lemma pmod360_lt (x : ℚ) : pmod360 x < 360 := by
  rw [pmod360_def]
  have h := Int.sub_floor_div_mul_lt x (by norm_num : (0:ℚ) < 360)
  linarith [h]

lemma pmod360_sub_intmul (x : ℚ) (k : ℤ) : pmod360 (x - 360 * k) = pmod360 x := by
  rw [pmod360_def, pmod360_def]
  have h : (x - 360 * k) / 360 = x / 360 - k := by ring
  rw [h, Int.floor_sub_int]
  push_cast
  ring

lemma pmod360_eq_self {x : ℚ} (h0 : 0 ≤ x) (h1 : x < 360) : pmod360 x = x := by
  rw [pmod360_def]
  have hf : ⌊x / 360⌋ = 0 := by
    rw [Int.floor_eq_zero_iff]
    constructor
    · positivity
    · rw [div_lt_one (by norm_num : (0:ℚ) < 360)]
      exact h1
  rw [hf]
  push_cast
  ring

lemma pmod360_idem (x : ℚ) : pmod360 (pmod360 x) = pmod360 x :=
  pmod360_eq_self (pmod360_nonneg x) (pmod360_lt x)

lemma pmod360_add_left (x y : ℚ) : pmod360 (pmod360 x + y) = pmod360 (x + y) := by
  have h : pmod360 x + y = (x + y) - 360 * (⌊x / 360⌋ : ℚ) := by
    rw [pmod360_def]; ring
  rw [h]
  exact pmod360_sub_intmul (x + y) ⌊x / 360⌋


/-- C4: get_sign is invariant under reducing its argument modulo 360, and
the example values hold: 0 maps to ARIES, 353.99 to PISCIS, 354.01 to ARIES. -/
theorem C4_get_sign_mod_invariant_and_examples :
    (∀ l : ℚ, get_sign (pmod360 l) = get_sign l) ∧
    get_sign 0 = "ARIES" ∧
    get_sign (35399 / 100) = "PISCIS" ∧
    get_sign (35401 / 100) = "ARIES" := by
  refine ⟨?_, ?_, ?_, ?_⟩
  · intro l
    rw [get_sign, get_sign, pmod360_idem]
  · norm_num [get_sign, get_sign_go, signsTable, arcTest, pmod360_def]
  · norm_num [get_sign, get_sign_go, signsTable, arcTest, pmod360_def]
  · norm_num [get_sign, get_sign_go, signsTable, arcTest, pmod360_def]

/-- C8: the aspect separation always lies in [0, 180] and is symmetric in
the pair order, hence the classification and the name are symmetric too;
bodies at 10 and 130 degrees are 120 degrees apart, classified
Armónico Relevante and named TRINE. -/
theorem C8_aspect_angle_range_and_symmetry :
    (∀ a b : ℚ, 0 ≤ calculate_angle a b ∧ calculate_angle a b ≤ 180) ∧
    (∀ a b : ℚ, calculate_angle a b = calculate_angle b a) ∧
    (∀ a b : ℚ,
      determine_aspect_type (calculate_angle a b) =
        determine_aspect_type (calculate_angle b a) ∧
      get_aspect_key (calculate_angle a b) = get_aspect_key (calculate_angle b a)) ∧
    calculate_angle 10 130 = 120 ∧
    determine_aspect_type 120 = some "Armónico Relevante" ∧
    get_aspect_key 120 = "TRINE" := by
  have hsymm : ∀ a b : ℚ, calculate_angle a b = calculate_angle b a := by
    intro a b
    rw [calculate_angle, calculate_angle, abs_sub_comm]
  refine ⟨?_, hsymm, ?_, ?_, ?_, ?_⟩
  · intro a b
    rw [calculate_angle]
    have h1 := pmod360_nonneg |a - b|
    have h2 := pmod360_lt |a - b|
    split_ifs with h
    · constructor <;> linarith
    · constructor <;> linarith
  · intro a b
    rw [hsymm a b]
    exact ⟨rfl, rfl⟩
  · norm_num [calculate_angle, pmod360_def]
  · norm_num [determine_aspect_type]
  · norm_num [get_aspect_key, pyRound, ratFloor_eq_floor]

/-- C9: the DST resolver for Spain follows the era rules: never before
1974, the fixed April 13 to October 6 window in 1974-1975, months April to
September in 1976-1996, and from 1997 on months April to September plus
March days at least 25 and October days at most 25; in particular
1980-06-01 is DST and 1970-06-01 is not. -/
theorem C9_dst_spain_eras :
    (∀ anio mes dia : ℤ, ∀ hem : String, anio < 1974 →
      determinar_horario_verano anio mes dia hem "Spain" = false) ∧
    (∀ anio mes dia : ℤ, ∀ hem : String, 1974 ≤ anio → anio ≤ 1975 →
      (determinar_horario_verano anio mes dia hem "Spain" = true ↔
        ((4 < mes ∧ mes < 10) ∨ (mes = 4 ∧ 13 ≤ dia) ∨ (mes = 10 ∧ dia ≤ 6)))) ∧
    (∀ anio mes dia : ℤ, ∀ hem : String, 1976 ≤ anio → anio ≤ 1996 →
      (determinar_horario_verano anio mes dia hem "Spain" = true ↔ (4 ≤ mes ∧ mes ≤ 9))) ∧
    (∀ anio mes dia : ℤ, ∀ hem : String, 1997 ≤ anio →
      (determinar_horario_verano anio mes dia hem "Spain" = true ↔
        ((4 ≤ mes ∧ mes ≤ 9) ∨ (mes = 3 ∧ 25 ≤ dia) ∨ (mes = 10 ∧ dia ≤ 25)))) ∧
    determinar_horario_verano 1980 6 1 "norte" "Spain" = true ∧
    determinar_horario_verano 1970 6 1 "norte" "Spain" = false := by
  have hsp : (strContains (strLower "Spain") "spain" || strContains (strLower "Spain") "españa") = true := by decide
  refine ⟨?_, ?_, ?_, ?_, ?_, ?_⟩
  · intro anio mes dia hem h
    simp only [determinar_horario_verano, hsp, if_true]
    split_ifs <;> first | rfl | omega
  · intro anio mes dia hem h1 h2
    simp only [determinar_horario_verano, hsp, if_true]
    split_ifs <;> simp <;> omega
  · intro anio mes dia hem h1 h2
    simp only [determinar_horario_verano, hsp, if_true]
    split_ifs <;> simp <;> omega
  · intro anio mes dia hem h1
    simp only [determinar_horario_verano, hsp, if_true]
    split_ifs <;> simp <;> omega
  · decide
  · decide

/-- C10: the dignity lookup is total with values among the five dignity
strings, follows the precedence domicilio, exaltacion, caida, exilio, and
yields peregrino for bodies absent from the table (such as ASC) and for
unmatched combinations. -/
theorem C10_dignity_total_precedence :
    (∀ planeta signo : String,
      calcular_dignidad_planetaria planeta signo ∈
        ["domicilio", "exaltacion", "caida", "exilio", "peregrino"] ∧
      (∀ d, DIGNIDADES.lookup planeta = some d →
        (signo ∈ d.domicilio → calcular_dignidad_planetaria planeta signo = "domicilio") ∧
        (signo ∉ d.domicilio → signo ∈ d.exaltacion →
          calcular_dignidad_planetaria planeta signo = "exaltacion") ∧
        (signo ∉ d.domicilio → signo ∉ d.exaltacion → signo ∈ d.caida →
          calcular_dignidad_planetaria planeta signo = "caida") ∧
        (signo ∉ d.domicilio → signo ∉ d.exaltacion → signo ∉ d.caida → signo ∈ d.exilio →
          calcular_dignidad_planetaria planeta signo = "exilio") ∧
        (signo ∉ d.domicilio → signo ∉ d.exaltacion → signo ∉ d.caida → signo ∉ d.exilio →
          calcular_dignidad_planetaria planeta signo = "peregrino")) ∧
      (DIGNIDADES.lookup planeta = none →
        calcular_dignidad_planetaria planeta signo = "peregrino")) ∧
    DIGNIDADES.lookup "ASC" = none := by
  refine ⟨?_, by decide⟩
  intro planeta signo
  refine ⟨?_, ?_, ?_⟩
  · rw [calcular_dignidad_planetaria]
    cases h : DIGNIDADES.lookup planeta with
    | none => simp
    | some d =>
      dsimp only
      split_ifs <;> simp
  · intro d hd
    rw [calcular_dignidad_planetaria, hd]
    dsimp only
    refine ⟨?_, ?_, ?_, ?_, ?_⟩ <;> intros <;> split_ifs <;> simp_all
  · intro h
    rw [calcular_dignidad_planetaria, h]


lemma processBody_name (u : Bool) (a : ℚ) (n : String) (r : ℚ × ℚ × ℚ) :
    (processBody u a n r).name = n := rfl

lemma anglePosition_name (u : Bool) (n : String) (l t : ℚ) :
    (anglePosition u n l t).name = n := rfl

lemma partPosition_name (n : String) (l : ℚ) : (partPosition n l).name = n := rfl

lemma processBody_tropical (u : Bool) (a : ℚ) (n : String) (r : ℚ × ℚ × ℚ) :
    (processBody u a n r).tropical_longitude = if u then some (pmod360 r.1) else none := rfl

lemma anglePosition_tropical (u : Bool) (n : String) (l t : ℚ) :
    (anglePosition u n l t).tropical_longitude = if u then some t else none := rfl

lemma partPosition_tropical (n : String) (l : ℚ) :
    (partPosition n l).tropical_longitude = none := rfl

lemma processBody_tropical_sign (u : Bool) (a : ℚ) (n : String) (r : ℚ × ℚ × ℚ) :
    (processBody u a n r).tropical_sign = if u then some (get_sign (pmod360 r.1)) else none := rfl

lemma anglePosition_tropical_sign (u : Bool) (n : String) (l t : ℚ) :
    (anglePosition u n l t).tropical_sign = if u then some (get_sign t) else none := rfl

lemma partPosition_tropical_sign (n : String) (l : ℚ) :
    (partPosition n l).tropical_sign = none := rfl

lemma anglePosition_longitude (u : Bool) (n : String) (l t : ℚ) :
    (anglePosition u n l t).longitude = l := rfl

lemma partPosition_longitude (n : String) (l : ℚ) : (partPosition n l).longitude = l := rfl

lemma processBody_longitude (u : Bool) (a : ℚ) (n : String) (r : ℚ × ℚ × ℚ) :
    (processBody u a n r).longitude =
      if u then pmod360 (pmod360 r.1 - a + 360) else pmod360 r.1 := by
  cases u <;> rfl

lemma calc_utc_true_eq (u : Bool) (a : ℚ) (e : String → ℚ × ℚ × ℚ) (a0 m0 : ℚ) :
    calculate_positions_with_utc u a e true a0 m0 =
      [processBody u a "SOL" (e "SOL"),
       processBody u a "LUNA" (e "LUNA"),
       processBody u a "MERCURIO" (e "MERCURIO"),
       processBody u a "VENUS" (e "VENUS"),
       processBody u a "MARTE" (e "MARTE"),
       processBody u a "JÚPITER" (e "JÚPITER"),
       processBody u a "SATURNO" (e "SATURNO"),
       processBody u a "URANO" (e "URANO"),
       processBody u a "NEPTUNO" (e "NEPTUNO"),
       processBody u a "PLUTÓN" (e "PLUTÓN"),
       anglePosition u "ASC" (ascVal u a a0) a0,
       anglePosition u "MC" (ascVal u a m0) m0,
       anglePosition u "DSC" (pmod360 (ascVal u a a0 + 180)) (pmod360 (a0 + 180)),
       anglePosition u "IC" (pmod360 (ascVal u a m0 + 180)) (pmod360 (m0 + 180)),
       partPosition "PARTE_FORTUNA"
         (parteFortunaVal (processBody u a "SOL" (e "SOL")).longitude
           (processBody u a "LUNA" (e "LUNA")).longitude (ascVal u a a0)),
       partPosition "PARTE_ESPIRITU"
         (parteEspirituVal (processBody u a "SOL" (e "SOL")).longitude
           (processBody u a "LUNA" (e "LUNA")).longitude (ascVal u a a0))] := rfl

lemma calc_utc_false_eq (u : Bool) (a : ℚ) (e : String → ℚ × ℚ × ℚ) (a0 m0 : ℚ) :
    calculate_positions_with_utc u a e false a0 m0 =
      [processBody u a "SOL" (e "SOL"),
       processBody u a "LUNA" (e "LUNA"),
       processBody u a "MERCURIO" (e "MERCURIO"),
       processBody u a "VENUS" (e "VENUS"),
       processBody u a "MARTE" (e "MARTE"),
       processBody u a "JÚPITER" (e "JÚPITER"),
       processBody u a "SATURNO" (e "SATURNO"),
       processBody u a "URANO" (e "URANO"),
       processBody u a "NEPTUNO" (e "NEPTUNO"),
       processBody u a "PLUTÓN" (e "PLUTÓN")] := rfl

lemma simulatedPlanet_name (u : Bool) (a d : ℚ) (n : String) (b : ℚ) :
    (simulatedPlanet u a d n b).name = n := rfl

lemma simulatedPlanet_tropical (u : Bool) (a d : ℚ) (n : String) (b : ℚ) :
    (simulatedPlanet u a d n b).tropical_longitude =
      if u then some (pmod360 (b + ((daily_rates.lookup n).getD 0) * d)) else none := rfl

lemma simulatedPlanet_tropical_sign (u : Bool) (a d : ℚ) (n : String) (b : ℚ) :
    (simulatedPlanet u a d n b).tropical_sign =
      if u then some (get_sign (pmod360 (b + ((daily_rates.lookup n).getD 0) * d))) else none := rfl

lemma simulatedPlanet_motion (u : Bool) (a d : ℚ) (n : String) (b : ℚ) :
    (simulatedPlanet u a d n b).motion_status = simulatedMotionStatus n d := rfl

lemma simulatedPlanet_longitude (u : Bool) (a d : ℚ) (n : String) (b : ℚ) :
    (simulatedPlanet u a d n b).longitude =
      if u then pmod360 (pmod360 (b + ((daily_rates.lookup n).getD 0) * d) - a + 360)
      else pmod360 (b + ((daily_rates.lookup n).getD 0) * d) := by
  cases u <;> rfl

lemma calc_sim_true_eq (u : Bool) (a d : ℚ) (a0 m0 : ℚ) :
    calculate_positions_simulated u a d true a0 m0 =
      [simulatedPlanet u a d "SOL" 279,
       simulatedPlanet u a d "LUNA" 134,
       simulatedPlanet u a d "MERCURIO" 268,
       simulatedPlanet u a d "VENUS" 285,
       simulatedPlanet u a d "MARTE" 94,
       simulatedPlanet u a d "JÚPITER" 316,
       simulatedPlanet u a d "SATURNO" 223,
       simulatedPlanet u a d "URANO" 312,
       simulatedPlanet u a d "NEPTUNO" 295,
       simulatedPlanet u a d "PLUTÓN" 232,
       anglePosition u "ASC" (ascVal u a a0) a0,
       anglePosition u "MC" (ascVal u a m0) m0,
       anglePosition u "DSC" (pmod360 (ascVal u a a0 + 180)) (pmod360 (a0 + 180)),
       anglePosition u "IC" (pmod360 (ascVal u a m0 + 180)) (pmod360 (m0 + 180)),
       partPosition "PARTE_FORTUNA"
         (parteFortunaVal (simulatedPlanet u a d "SOL" 279).longitude
           (simulatedPlanet u a d "LUNA" 134).longitude (ascVal u a a0)),
       partPosition "PARTE_ESPIRITU"
         (parteEspirituVal (simulatedPlanet u a d "SOL" 279).longitude
           (simulatedPlanet u a d "LUNA" 134).longitude (ascVal u a a0))] := rfl

lemma calc_sim_false_eq (u : Bool) (a d : ℚ) (a0 m0 : ℚ) :
    calculate_positions_simulated u a d false a0 m0 =
      [simulatedPlanet u a d "SOL" 279,
       simulatedPlanet u a d "LUNA" 134,
       simulatedPlanet u a d "MERCURIO" 268,
       simulatedPlanet u a d "VENUS" 285,
       simulatedPlanet u a d "MARTE" 94,
       simulatedPlanet u a d "JÚPITER" 316,
       simulatedPlanet u a d "SATURNO" 223,
       simulatedPlanet u a d "URANO" 312,
       simulatedPlanet u a d "NEPTUNO" 295,
       simulatedPlanet u a d "PLUTÓN" 232] := rfl

lemma mem_utc_cases (u : Bool) (a : ℚ) (e : String → ℚ × ℚ × ℚ) (a0 m0 : ℚ)
    (p : Position) (hp : p ∈ calculate_positions_with_utc u a e true a0 m0) :
    p = processBody u a "SOL" (e "SOL") ∨
    p = processBody u a "LUNA" (e "LUNA") ∨
    p = processBody u a "MERCURIO" (e "MERCURIO") ∨
    p = processBody u a "VENUS" (e "VENUS") ∨
    p = processBody u a "MARTE" (e "MARTE") ∨
    p = processBody u a "JÚPITER" (e "JÚPITER") ∨
    p = processBody u a "SATURNO" (e "SATURNO") ∨
    p = processBody u a "URANO" (e "URANO") ∨
    p = processBody u a "NEPTUNO" (e "NEPTUNO") ∨
    p = processBody u a "PLUTÓN" (e "PLUTÓN") ∨
    p = anglePosition u "ASC" (ascVal u a a0) a0 ∨
    p = anglePosition u "MC" (ascVal u a m0) m0 ∨
    p = anglePosition u "DSC" (pmod360 (ascVal u a a0 + 180)) (pmod360 (a0 + 180)) ∨
    p = anglePosition u "IC" (pmod360 (ascVal u a m0 + 180)) (pmod360 (m0 + 180)) ∨
    p = partPosition "PARTE_FORTUNA"
          (parteFortunaVal (processBody u a "SOL" (e "SOL")).longitude
            (processBody u a "LUNA" (e "LUNA")).longitude (ascVal u a a0)) ∨
    p = partPosition "PARTE_ESPIRITU"
          (parteEspirituVal (processBody u a "SOL" (e "SOL")).longitude
            (processBody u a "LUNA" (e "LUNA")).longitude (ascVal u a a0)) := by
  rw [calc_utc_true_eq] at hp
  simpa using hp

lemma mem_utc_false_cases (u : Bool) (a : ℚ) (e : String → ℚ × ℚ × ℚ) (a0 m0 : ℚ)
    (p : Position) (hp : p ∈ calculate_positions_with_utc u a e false a0 m0) :
    p = processBody u a "SOL" (e "SOL") ∨
    p = processBody u a "LUNA" (e "LUNA") ∨
    p = processBody u a "MERCURIO" (e "MERCURIO") ∨
    p = processBody u a "VENUS" (e "VENUS") ∨
    p = processBody u a "MARTE" (e "MARTE") ∨
    p = processBody u a "JÚPITER" (e "JÚPITER") ∨
    p = processBody u a "SATURNO" (e "SATURNO") ∨
    p = processBody u a "URANO" (e "URANO") ∨
    p = processBody u a "NEPTUNO" (e "NEPTUNO") ∨
    p = processBody u a "PLUTÓN" (e "PLUTÓN") := by
  rw [calc_utc_false_eq] at hp
  simpa using hp

lemma mem_sim_cases (u : Bool) (a d : ℚ) (a0 m0 : ℚ)
    (p : Position) (hp : p ∈ calculate_positions_simulated u a d true a0 m0) :
    p = simulatedPlanet u a d "SOL" 279 ∨
    p = simulatedPlanet u a d "LUNA" 134 ∨
    p = simulatedPlanet u a d "MERCURIO" 268 ∨
    p = simulatedPlanet u a d "VENUS" 285 ∨
    p = simulatedPlanet u a d "MARTE" 94 ∨
    p = simulatedPlanet u a d "JÚPITER" 316 ∨
    p = simulatedPlanet u a d "SATURNO" 223 ∨
    p = simulatedPlanet u a d "URANO" 312 ∨
    p = simulatedPlanet u a d "NEPTUNO" 295 ∨
    p = simulatedPlanet u a d "PLUTÓN" 232 ∨
    p = anglePosition u "ASC" (ascVal u a a0) a0 ∨
    p = anglePosition u "MC" (ascVal u a m0) m0 ∨
    p = anglePosition u "DSC" (pmod360 (ascVal u a a0 + 180)) (pmod360 (a0 + 180)) ∨
    p = anglePosition u "IC" (pmod360 (ascVal u a m0 + 180)) (pmod360 (m0 + 180)) ∨
    p = partPosition "PARTE_FORTUNA"
          (parteFortunaVal (simulatedPlanet u a d "SOL" 279).longitude
            (simulatedPlanet u a d "LUNA" 134).longitude (ascVal u a a0)) ∨
    p = partPosition "PARTE_ESPIRITU"
          (parteEspirituVal (simulatedPlanet u a d "SOL" 279).longitude
            (simulatedPlanet u a d "LUNA" 134).longitude (ascVal u a a0)) := by
  rw [calc_sim_true_eq] at hp
  simpa using hp

lemma mem_sim_false_cases (u : Bool) (a d : ℚ) (a0 m0 : ℚ)
    (p : Position) (hp : p ∈ calculate_positions_simulated u a d false a0 m0) :
    p = simulatedPlanet u a d "SOL" 279 ∨
    p = simulatedPlanet u a d "LUNA" 134 ∨
    p = simulatedPlanet u a d "MERCURIO" 268 ∨
    p = simulatedPlanet u a d "VENUS" 285 ∨
    p = simulatedPlanet u a d "MARTE" 94 ∨
    p = simulatedPlanet u a d "JÚPITER" 316 ∨
    p = simulatedPlanet u a d "SATURNO" 223 ∨
    p = simulatedPlanet u a d "URANO" 312 ∨
    p = simulatedPlanet u a d "NEPTUNO" 295 ∨
    p = simulatedPlanet u a d "PLUTÓN" 232 := by
  rw [calc_sim_false_eq] at hp
  simpa using hp

lemma utc_asc_eq (u : Bool) (a : ℚ) (e : String → ℚ × ℚ × ℚ) (a0 m0 : ℚ)
    (p : Position) (hp : p ∈ calculate_positions_with_utc u a e true a0 m0)
    (hn : p.name = "ASC") : p = anglePosition u "ASC" (ascVal u a a0) a0 := by
  rcases mem_utc_cases u a e a0 m0 p hp with
    rfl|rfl|rfl|rfl|rfl|rfl|rfl|rfl|rfl|rfl|rfl|rfl|rfl|rfl|rfl|rfl <;>
    simp only [processBody_name, anglePosition_name, partPosition_name] at hn <;>
    first | rfl | simp at hn

lemma utc_mc_eq (u : Bool) (a : ℚ) (e : String → ℚ × ℚ × ℚ) (a0 m0 : ℚ)
    (p : Position) (hp : p ∈ calculate_positions_with_utc u a e true a0 m0)
    (hn : p.name = "MC") : p = anglePosition u "MC" (ascVal u a m0) m0 := by
  rcases mem_utc_cases u a e a0 m0 p hp with
    rfl|rfl|rfl|rfl|rfl|rfl|rfl|rfl|rfl|rfl|rfl|rfl|rfl|rfl|rfl|rfl <;>
    simp only [processBody_name, anglePosition_name, partPosition_name] at hn <;>
    first | rfl | simp at hn

lemma utc_dsc_eq (u : Bool) (a : ℚ) (e : String → ℚ × ℚ × ℚ) (a0 m0 : ℚ)
    (p : Position) (hp : p ∈ calculate_positions_with_utc u a e true a0 m0)
    (hn : p.name = "DSC") :
    p = anglePosition u "DSC" (pmod360 (ascVal u a a0 + 180)) (pmod360 (a0 + 180)) := by
  rcases mem_utc_cases u a e a0 m0 p hp with
    rfl|rfl|rfl|rfl|rfl|rfl|rfl|rfl|rfl|rfl|rfl|rfl|rfl|rfl|rfl|rfl <;>
    simp only [processBody_name, anglePosition_name, partPosition_name] at hn <;>
    first | rfl | simp at hn

lemma utc_ic_eq (u : Bool) (a : ℚ) (e : String → ℚ × ℚ × ℚ) (a0 m0 : ℚ)
    (p : Position) (hp : p ∈ calculate_positions_with_utc u a e true a0 m0)
    (hn : p.name = "IC") :
    p = anglePosition u "IC" (pmod360 (ascVal u a m0 + 180)) (pmod360 (m0 + 180)) := by
  rcases mem_utc_cases u a e a0 m0 p hp with
    rfl|rfl|rfl|rfl|rfl|rfl|rfl|rfl|rfl|rfl|rfl|rfl|rfl|rfl|rfl|rfl <;>
    simp only [processBody_name, anglePosition_name, partPosition_name] at hn <;>
    first | rfl | simp at hn

lemma utc_sol_eq (u : Bool) (a : ℚ) (e : String → ℚ × ℚ × ℚ) (a0 m0 : ℚ)
    (p : Position) (hp : p ∈ calculate_positions_with_utc u a e true a0 m0)
    (hn : p.name = "SOL") : p = processBody u a "SOL" (e "SOL") := by
  rcases mem_utc_cases u a e a0 m0 p hp with
    rfl|rfl|rfl|rfl|rfl|rfl|rfl|rfl|rfl|rfl|rfl|rfl|rfl|rfl|rfl|rfl <;>
    simp only [processBody_name, anglePosition_name, partPosition_name] at hn <;>
    first | rfl | simp at hn

lemma utc_luna_eq (u : Bool) (a : ℚ) (e : String → ℚ × ℚ × ℚ) (a0 m0 : ℚ)
    (p : Position) (hp : p ∈ calculate_positions_with_utc u a e true a0 m0)
    (hn : p.name = "LUNA") : p = processBody u a "LUNA" (e "LUNA") := by
  rcases mem_utc_cases u a e a0 m0 p hp with
    rfl|rfl|rfl|rfl|rfl|rfl|rfl|rfl|rfl|rfl|rfl|rfl|rfl|rfl|rfl|rfl <;>
    simp only [processBody_name, anglePosition_name, partPosition_name] at hn <;>
    first | rfl | simp at hn

lemma utc_pf_eq (u : Bool) (a : ℚ) (e : String → ℚ × ℚ × ℚ) (a0 m0 : ℚ)
    (p : Position) (hp : p ∈ calculate_positions_with_utc u a e true a0 m0)
    (hn : p.name = "PARTE_FORTUNA") :
    p = partPosition "PARTE_FORTUNA"
          (parteFortunaVal (processBody u a "SOL" (e "SOL")).longitude
            (processBody u a "LUNA" (e "LUNA")).longitude (ascVal u a a0)) := by
  rcases mem_utc_cases u a e a0 m0 p hp with
    rfl|rfl|rfl|rfl|rfl|rfl|rfl|rfl|rfl|rfl|rfl|rfl|rfl|rfl|rfl|rfl <;>
    simp only [processBody_name, anglePosition_name, partPosition_name] at hn <;>
    first | rfl | simp at hn

lemma utc_pe_eq (u : Bool) (a : ℚ) (e : String → ℚ × ℚ × ℚ) (a0 m0 : ℚ)
    (p : Position) (hp : p ∈ calculate_positions_with_utc u a e true a0 m0)
    (hn : p.name = "PARTE_ESPIRITU") :
    p = partPosition "PARTE_ESPIRITU"
          (parteEspirituVal (processBody u a "SOL" (e "SOL")).longitude
            (processBody u a "LUNA" (e "LUNA")).longitude (ascVal u a a0)) := by
  rcases mem_utc_cases u a e a0 m0 p hp with
    rfl|rfl|rfl|rfl|rfl|rfl|rfl|rfl|rfl|rfl|rfl|rfl|rfl|rfl|rfl|rfl <;>
    simp only [processBody_name, anglePosition_name, partPosition_name] at hn <;>
    first | rfl | simp at hn

lemma sim_asc_eq (u : Bool) (a d : ℚ) (a0 m0 : ℚ)
    (p : Position) (hp : p ∈ calculate_positions_simulated u a d true a0 m0)
    (hn : p.name = "ASC") : p = anglePosition u "ASC" (ascVal u a a0) a0 := by
  rcases mem_sim_cases u a d a0 m0 p hp with
    rfl|rfl|rfl|rfl|rfl|rfl|rfl|rfl|rfl|rfl|rfl|rfl|rfl|rfl|rfl|rfl <;>
    simp only [simulatedPlanet_name, anglePosition_name, partPosition_name] at hn <;>
    first | rfl | simp at hn

lemma sim_mc_eq (u : Bool) (a d : ℚ) (a0 m0 : ℚ)
    (p : Position) (hp : p ∈ calculate_positions_simulated u a d true a0 m0)
    (hn : p.name = "MC") : p = anglePosition u "MC" (ascVal u a m0) m0 := by
  rcases mem_sim_cases u a d a0 m0 p hp with
    rfl|rfl|rfl|rfl|rfl|rfl|rfl|rfl|rfl|rfl|rfl|rfl|rfl|rfl|rfl|rfl <;>
    simp only [simulatedPlanet_name, anglePosition_name, partPosition_name] at hn <;>
    first | rfl | simp at hn

lemma sim_dsc_eq (u : Bool) (a d : ℚ) (a0 m0 : ℚ)
    (p : Position) (hp : p ∈ calculate_positions_simulated u a d true a0 m0)
    (hn : p.name = "DSC") :
    p = anglePosition u "DSC" (pmod360 (ascVal u a a0 + 180)) (pmod360 (a0 + 180)) := by
  rcases mem_sim_cases u a d a0 m0 p hp with
    rfl|rfl|rfl|rfl|rfl|rfl|rfl|rfl|rfl|rfl|rfl|rfl|rfl|rfl|rfl|rfl <;>
    simp only [simulatedPlanet_name, anglePosition_name, partPosition_name] at hn <;>
    first | rfl | simp at hn

lemma sim_ic_eq (u : Bool) (a d : ℚ) (a0 m0 : ℚ)
    (p : Position) (hp : p ∈ calculate_positions_simulated u a d true a0 m0)
    (hn : p.name = "IC") :
    p = anglePosition u "IC" (pmod360 (ascVal u a m0 + 180)) (pmod360 (m0 + 180)) := by
  rcases mem_sim_cases u a d a0 m0 p hp with
    rfl|rfl|rfl|rfl|rfl|rfl|rfl|rfl|rfl|rfl|rfl|rfl|rfl|rfl|rfl|rfl <;>
    simp only [simulatedPlanet_name, anglePosition_name, partPosition_name] at hn <;>
    first | rfl | simp at hn

lemma motionStatus_sol (db da : ℚ) : motionStatus "SOL" db da = "direct" := by
  rw [motionStatus, if_pos (Or.inl rfl)]

lemma motionStatus_luna (db da : ℚ) : motionStatus "LUNA" db da = "direct" := by
  rw [motionStatus, if_pos (Or.inr rfl)]

lemma simulatedMotionStatus_sol (d : ℚ) : simulatedMotionStatus "SOL" d = "direct" := rfl

lemma simulatedMotionStatus_luna (d : ℚ) : simulatedMotionStatus "LUNA" d = "direct" := rfl

lemma processBody_motion_sol (u : Bool) (a : ℚ) (r : ℚ × ℚ × ℚ) :
    (processBody u a "SOL" r).motion_status = "direct" := by
  dsimp only [processBody]
  exact motionStatus_sol _ _

lemma processBody_motion_luna (u : Bool) (a : ℚ) (r : ℚ × ℚ × ℚ) :
    (processBody u a "LUNA" r).motion_status = "direct" := by
  dsimp only [processBody]
  exact motionStatus_luna _ _

lemma fb_angle_longs (p : Position) (hp : p ∈ fallback_positions) :
    (p.name = "ASC" → p.longitude = 0) ∧ (p.name = "DSC" → p.longitude = 180) ∧
    (p.name = "MC" → p.longitude = 270) ∧ (p.name = "IC" → p.longitude = 90) := by
  simp only [fallback_positions, List.mem_cons, List.not_mem_nil, or_false] at hp
  rcases hp with rfl|rfl|rfl|rfl|rfl|rfl|rfl|rfl|rfl|rfl|rfl|rfl|rfl|rfl|rfl|rfl <;>
    refine ⟨?_, ?_, ?_, ?_⟩ <;> intro hn <;> simp_all

/-- C6: in every computed chart containing an Ascendant and a Midheaven, in the
ephemeris path, the simulated fallback path and the hard-coded last-resort list,
the Descendant longitude is (Ascendant + 180) mod 360 and the Imum Coeli
longitude is (Midheaven + 180) mod 360. -/
theorem C6_dsc_ic_opposition :
    (∀ (u : Bool) (a : ℚ) (e : String → ℚ × ℚ × ℚ) (a0 m0 : ℚ)
        (pA pD pM pI : Position),
      pA ∈ calculate_positions_with_utc u a e true a0 m0 →
      pD ∈ calculate_positions_with_utc u a e true a0 m0 →
      pM ∈ calculate_positions_with_utc u a e true a0 m0 →
      pI ∈ calculate_positions_with_utc u a e true a0 m0 →
      pA.name = "ASC" → pD.name = "DSC" → pM.name = "MC" → pI.name = "IC" →
      pD.longitude = pmod360 (pA.longitude + 180) ∧
        pI.longitude = pmod360 (pM.longitude + 180)) ∧
    (∀ (u : Bool) (a d a0 m0 : ℚ) (pA pD pM pI : Position),
      pA ∈ calculate_positions_simulated u a d true a0 m0 →
      pD ∈ calculate_positions_simulated u a d true a0 m0 →
      pM ∈ calculate_positions_simulated u a d true a0 m0 →
      pI ∈ calculate_positions_simulated u a d true a0 m0 →
      pA.name = "ASC" → pD.name = "DSC" → pM.name = "MC" → pI.name = "IC" →
      pD.longitude = pmod360 (pA.longitude + 180) ∧
        pI.longitude = pmod360 (pM.longitude + 180)) ∧
    (∀ pA pD pM pI : Position,
      pA ∈ fallback_positions → pD ∈ fallback_positions →
      pM ∈ fallback_positions → pI ∈ fallback_positions →
      pA.name = "ASC" → pD.name = "DSC" → pM.name = "MC" → pI.name = "IC" →
      pD.longitude = pmod360 (pA.longitude + 180) ∧
        pI.longitude = pmod360 (pM.longitude + 180)) := by
  refine ⟨?_, ?_, ?_⟩
  · intro u a e a0 m0 pA pD pM pI hpA hpD hpM hpI hnA hnD hnM hnI
    rw [utc_asc_eq u a e a0 m0 pA hpA hnA, utc_dsc_eq u a e a0 m0 pD hpD hnD,
      utc_mc_eq u a e a0 m0 pM hpM hnM, utc_ic_eq u a e a0 m0 pI hpI hnI]
    exact ⟨rfl, rfl⟩
  · intro u a d a0 m0 pA pD pM pI hpA hpD hpM hpI hnA hnD hnM hnI
    rw [sim_asc_eq u a d a0 m0 pA hpA hnA, sim_dsc_eq u a d a0 m0 pD hpD hnD,
      sim_mc_eq u a d a0 m0 pM hpM hnM, sim_ic_eq u a d a0 m0 pI hpI hnI]
    exact ⟨rfl, rfl⟩
  · intro pA pD pM pI hpA hpD hpM hpI hnA hnD hnM hnI
    have hA := (fb_angle_longs pA hpA).1 hnA
    have hD := (fb_angle_longs pD hpD).2.1 hnD
    have hM := (fb_angle_longs pM hpM).2.2.1 hnM
    have hI := (fb_angle_longs pI hpI).2.2.2 hnI
    rw [hA, hD, hM, hI]
    constructor <;> rw [pmod360_def] <;> norm_num

lemma get_house_number_eq (lng asc : ℚ) :
    get_house_number lng asc = 1 + ⌊pmod360 (lng - asc) / 30⌋ ∧
      1 ≤ get_house_number lng asc ∧ get_house_number lng asc ≤ 12 := by
  have h0 := pmod360_nonneg (lng - asc)
  have h1 := pmod360_lt (lng - asc)
  have hk0 : (0 : ℤ) ≤ ⌊pmod360 (lng - asc) / 30⌋ := Int.le_floor.2 (by positivity)
  have hk1 : ⌊pmod360 (lng - asc) / 30⌋ < 12 := Int.floor_lt.2 (by push_cast; linarith)
  rw [get_house_number, ratFloor_eq_floor]
  rw [if_neg (by omega)]
  exact ⟨rfl, by omega, by omega⟩

/-- C7: the Parts of Fortune and Spirit are present iff Sun, Moon and
Ascendant are all present; the chart is diurnal iff the Sun's house
(the 4.9 formula) lies in 7..12, with the concrete example Sun 100,
Ascendant 10 giving house 4 and a nocturnal chart; and the two Parts
follow the diurnal/nocturnal formulas with swapped branches. -/
theorem C7_parts_fortune_spirit :
    (∀ (u : Bool) (a : ℚ) (e : String → ℚ × ℚ × ℚ) (hc : Bool) (a0 m0 : ℚ),
      ((∃ p ∈ calculate_positions_with_utc u a e hc a0 m0, p.name = "PARTE_FORTUNA") ∧
       (∃ p ∈ calculate_positions_with_utc u a e hc a0 m0, p.name = "PARTE_ESPIRITU")) ↔
      ((∃ p ∈ calculate_positions_with_utc u a e hc a0 m0, p.name = "SOL") ∧
       (∃ p ∈ calculate_positions_with_utc u a e hc a0 m0, p.name = "LUNA") ∧
       (∃ p ∈ calculate_positions_with_utc u a e hc a0 m0, p.name = "ASC"))) ∧
    (∀ sol asc : ℚ, is_dry_birth sol asc = true ↔
      (7 ≤ get_house_number sol asc ∧ get_house_number sol asc ≤ 12)) ∧
    (get_house_number 100 10 = 4 ∧ is_dry_birth 100 10 = false) ∧
    (∀ (u : Bool) (a : ℚ) (e : String → ℚ × ℚ × ℚ) (a0 m0 : ℚ)
        (pf pe sol luna pasc : Position),
      pf ∈ calculate_positions_with_utc u a e true a0 m0 →
      pe ∈ calculate_positions_with_utc u a e true a0 m0 →
      sol ∈ calculate_positions_with_utc u a e true a0 m0 →
      luna ∈ calculate_positions_with_utc u a e true a0 m0 →
      pasc ∈ calculate_positions_with_utc u a e true a0 m0 →
      pf.name = "PARTE_FORTUNA" → pe.name = "PARTE_ESPIRITU" →
      sol.name = "SOL" → luna.name = "LUNA" → pasc.name = "ASC" →
      (pf.longitude =
        if is_dry_birth sol.longitude pasc.longitude then
          pmod360 (pasc.longitude + pmod360 (luna.longitude - sol.longitude))
        else pmod360 (pasc.longitude + pmod360 (sol.longitude - luna.longitude))) ∧
      (pe.longitude =
        if is_dry_birth sol.longitude pasc.longitude then
          pmod360 (pasc.longitude + pmod360 (sol.longitude - luna.longitude))
        else pmod360 (pasc.longitude + pmod360 (luna.longitude - sol.longitude)))) := by
  refine ⟨?_, ?_, ⟨?_, ?_⟩, ?_⟩
  · intro u a e hc a0 m0
    cases hc with
    | false =>
      constructor
      · rintro ⟨⟨p, hp, hn⟩, -⟩
        exfalso
        rcases mem_utc_false_cases u a e a0 m0 p hp with
          rfl|rfl|rfl|rfl|rfl|rfl|rfl|rfl|rfl|rfl <;>
          simp only [processBody_name] at hn <;> simp at hn
      · rintro ⟨-, -, ⟨p, hp, hn⟩⟩
        exfalso
        rcases mem_utc_false_cases u a e a0 m0 p hp with
          rfl|rfl|rfl|rfl|rfl|rfl|rfl|rfl|rfl|rfl <;>
          simp only [processBody_name] at hn <;> simp at hn
    | true =>
      constructor
      · intro _
        exact ⟨⟨processBody u a "SOL" (e "SOL"), by rw [calc_utc_true_eq]; simp, rfl⟩,
               ⟨processBody u a "LUNA" (e "LUNA"), by rw [calc_utc_true_eq]; simp, rfl⟩,
               ⟨anglePosition u "ASC" (ascVal u a a0) a0, by rw [calc_utc_true_eq]; simp, rfl⟩⟩
      · intro _
        refine ⟨⟨partPosition "PARTE_FORTUNA"
            (parteFortunaVal (processBody u a "SOL" (e "SOL")).longitude
              (processBody u a "LUNA" (e "LUNA")).longitude (ascVal u a a0)),
            by rw [calc_utc_true_eq]; simp, rfl⟩,
          ⟨partPosition "PARTE_ESPIRITU"
            (parteEspirituVal (processBody u a "SOL" (e "SOL")).longitude
              (processBody u a "LUNA" (e "LUNA")).longitude (ascVal u a a0)),
            by rw [calc_utc_true_eq]; simp, rfl⟩⟩
  · intro sol asc
    obtain ⟨heq, -, -⟩ := get_house_number_eq sol asc
    rw [is_dry_birth, ratFloor_eq_floor, heq]
    simp
  · obtain ⟨heq, -, -⟩ := get_house_number_eq 100 10
    rw [heq]
    rw [show pmod360 ((100 : ℚ) - 10) = 90 by rw [pmod360_def]; norm_num]
    norm_num
  · rw [is_dry_birth, ratFloor_eq_floor]
    rw [show pmod360 ((100 : ℚ) - 10) = 90 by rw [pmod360_def]; norm_num]
    norm_num
  · intro u a e a0 m0 pf pe sol luna pasc hpf hpe hsol hluna hpasc hnf hne hns hnl hna
    rw [utc_pf_eq u a e a0 m0 pf hpf hnf, utc_pe_eq u a e a0 m0 pe hpe hne,
      utc_sol_eq u a e a0 m0 sol hsol hns, utc_luna_eq u a e a0 m0 luna hluna hnl,
      utc_asc_eq u a e a0 m0 pasc hpasc hna]
    rw [partPosition_longitude, partPosition_longitude, anglePosition_longitude]
    exact ⟨rfl, rfl⟩

lemma motionStatus_spec (n : String) (db da : ℚ) (h : ¬(n = "SOL" ∨ n = "LUNA")) :
    motionStatus n db da =
      if |db| < 1 / 10 ∨ |da| < 1 / 10 then
        (if db < 0 ∧ da < 0 then "stationary_retrograde"
         else if 0 ≤ db ∧ da < 0 then "stationary_retrograde"
         else if db < 0 ∧ 0 ≤ da then "stationary_direct"
         else "stationary_direct")
      else
        (if db < 0 ∧ da < 0 then "retrograde"
         else if 0 ≤ db ∧ da < 0 then "stationary_retrograde"
         else if db < 0 ∧ 0 ≤ da then "stationary_direct"
         else "direct") := by
  rw [motionStatus, if_neg h]
  by_cases hdb : db < 0 <;> by_cases hda : da < 0 <;>
    by_cases h4 : |db| < 1 / 10 ∨ |da| < 1 / 10 <;>
    simp_all [not_lt] <;> try split_ifs <;> try simp_all <;> try linarith

/-- C5: for bodies other than the Sun and Moon the motion state follows the
two-delta classification with the near-stationary override at 0.1 degrees
per day, and the Sun and Moon are always direct, in the ephemeris path and
in the simulated fallback path. -/
theorem C5_motion_states :
    (∀ (n : String) (db da : ℚ), n ≠ "SOL" → n ≠ "LUNA" →
      (db < 0 → da < 0 → 1 / 10 ≤ |db| → 1 / 10 ≤ |da| →
        motionStatus n db da = "retrograde") ∧
      (0 ≤ db → da < 0 → motionStatus n db da = "stationary_retrograde") ∧
      (db < 0 → 0 ≤ da → motionStatus n db da = "stationary_direct") ∧
      (0 ≤ db → 0 ≤ da → 1 / 10 ≤ |db| → 1 / 10 ≤ |da| →
        motionStatus n db da = "direct") ∧
      (db < 0 → da < 0 → (|db| < 1 / 10 ∨ |da| < 1 / 10) →
        motionStatus n db da = "stationary_retrograde") ∧
      (0 ≤ db → 0 ≤ da → (|db| < 1 / 10 ∨ |da| < 1 / 10) →
        motionStatus n db da = "stationary_direct")) ∧
    (∀ db da : ℚ, motionStatus "SOL" db da = "direct" ∧
      motionStatus "LUNA" db da = "direct") ∧
    (∀ d : ℚ, simulatedMotionStatus "SOL" d = "direct" ∧
      simulatedMotionStatus "LUNA" d = "direct") ∧
    (∀ (u : Bool) (a : ℚ) (e : String → ℚ × ℚ × ℚ) (hc : Bool) (a0 m0 : ℚ),
      ∀ p ∈ calculate_positions_with_utc u a e hc a0 m0,
        p.name = "SOL" ∨ p.name = "LUNA" → p.motion_status = "direct") ∧
    (∀ (u : Bool) (a d : ℚ) (hc : Bool) (a0 m0 : ℚ),
      ∀ p ∈ calculate_positions_simulated u a d hc a0 m0,
        p.name = "SOL" ∨ p.name = "LUNA" → p.motion_status = "direct") := by
  refine ⟨?_, ?_, ?_, ?_, ?_⟩
  · intro n db da hn1 hn2
    have hno : ¬(n = "SOL" ∨ n = "LUNA") := by tauto
    refine ⟨?_, ?_, ?_, ?_, ?_, ?_⟩
    · intro h1 h2 h3 h4
      rw [motionStatus_spec n db da hno, if_neg (by push_neg; constructor <;> linarith),
        if_pos ⟨h1, h2⟩]
    · intro h1 h2
      rw [motionStatus_spec n db da hno]
      by_cases hq : |db| < 1 / 10 ∨ |da| < 1 / 10
      · rw [if_pos hq, if_neg (by rintro ⟨x, y⟩; linarith), if_pos ⟨h1, h2⟩]
      · rw [if_neg hq, if_neg (by rintro ⟨x, y⟩; linarith), if_pos ⟨h1, h2⟩]
    · intro h1 h2
      rw [motionStatus_spec n db da hno]
      by_cases hq : |db| < 1 / 10 ∨ |da| < 1 / 10
      · rw [if_pos hq, if_neg (by rintro ⟨x, y⟩; linarith),
          if_neg (by rintro ⟨x, y⟩; linarith), if_pos ⟨h1, h2⟩]
      · rw [if_neg hq, if_neg (by rintro ⟨x, y⟩; linarith),
          if_neg (by rintro ⟨x, y⟩; linarith), if_pos ⟨h1, h2⟩]
    · intro h1 h2 h3 h4
      rw [motionStatus_spec n db da hno, if_neg (by push_neg; constructor <;> linarith)]
      rw [if_neg (by rintro ⟨x, y⟩; linarith), if_neg (by rintro ⟨x, y⟩; linarith),
        if_neg (by rintro ⟨x, y⟩; linarith)]
    · intro h1 h2 h3
      rw [motionStatus_spec n db da hno, if_pos h3, if_pos ⟨h1, h2⟩]
    · intro h1 h2 h3
      rw [motionStatus_spec n db da hno, if_pos h3,
        if_neg (by rintro ⟨x, y⟩; linarith), if_neg (by rintro ⟨x, y⟩; linarith),
        if_neg (by rintro ⟨x, y⟩; linarith)]
  · intro db da
    exact ⟨motionStatus_sol db da, motionStatus_luna db da⟩
  · intro d
    exact ⟨simulatedMotionStatus_sol d, simulatedMotionStatus_luna d⟩
  · intro u a e hc a0 m0 p hp hn
    cases hc with
    | false =>
      rcases mem_utc_false_cases u a e a0 m0 p hp with
        rfl|rfl|rfl|rfl|rfl|rfl|rfl|rfl|rfl|rfl <;>
        simp only [processBody_name] at hn <;>
        first
          | exact processBody_motion_sol _ _ _
          | exact processBody_motion_luna _ _ _
          | simp at hn
    | true =>
      rcases mem_utc_cases u a e a0 m0 p hp with
        rfl|rfl|rfl|rfl|rfl|rfl|rfl|rfl|rfl|rfl|rfl|rfl|rfl|rfl|rfl|rfl <;>
        simp only [processBody_name, anglePosition_name, partPosition_name] at hn <;>
        first
          | exact processBody_motion_sol _ _ _
          | exact processBody_motion_luna _ _ _
          | rfl
          | simp at hn
  · intro u a d hc a0 m0 p hp hn
    cases hc with
    | false =>
      rcases mem_sim_false_cases u a d a0 m0 p hp with
        rfl|rfl|rfl|rfl|rfl|rfl|rfl|rfl|rfl|rfl <;>
        simp only [simulatedPlanet_name] at hn <;>
        first
          | exact (simulatedPlanet_motion _ _ _ _ _).trans (simulatedMotionStatus_sol _)
          | exact (simulatedPlanet_motion _ _ _ _ _).trans (simulatedMotionStatus_luna _)
          | simp at hn
    | true =>
      rcases mem_sim_cases u a d a0 m0 p hp with
        rfl|rfl|rfl|rfl|rfl|rfl|rfl|rfl|rfl|rfl|rfl|rfl|rfl|rfl|rfl|rfl <;>
        simp only [simulatedPlanet_name, anglePosition_name, partPosition_name] at hn <;>
        first
          | exact (simulatedPlanet_motion _ _ _ _ _).trans (simulatedMotionStatus_sol _)
          | exact (simulatedPlanet_motion _ _ _ _ _).trans (simulatedMotionStatus_luna _)
          | rfl
          | simp at hn

lemma sid_shift (a x : ℚ) :
    pmod360 (pmod360 (x - a + 360) + 180) = pmod360 (pmod360 (x + 180) - a + 360) := by
  rw [pmod360_add_left]
  have h2 : pmod360 (x + 180) - a + 360 = pmod360 (x + 180) + (-a + 360) := by ring
  rw [h2, pmod360_add_left]
  congr 1
  ring

/-- C2: the ayanamsa is the linear Fagan-Allen model, equal to 24 exactly at
J2000.0; in sidereal mode every reported longitude (planets and the
ASC/MC/DSC/IC angles alike) equals (tropical longitude - ayanamsa + 360)
mod 360; and the motion data are computed from the sidereal-corrected
current, day-before and day-after longitudes, the same correction applied
to all three. -/
theorem C2_ayanamsa_and_sidereal_correction :
    calculate_fagan_allen_ayanamsa 0 = 24 ∧
    calculate_fagan_allen_ayanamsa ((36525 / 100) * 24 * 60 * 60) = 24 + 1397 / 100000 ∧
    (∀ (a : ℚ) (e : String → ℚ × ℚ × ℚ) (hc : Bool) (a0 m0 : ℚ),
      ∀ p ∈ calculate_positions_with_utc true a e hc a0 m0,
        ∀ tl, p.tropical_longitude = some tl → p.longitude = pmod360 (tl - a + 360)) ∧
    (∀ (a x : ℚ), sidCorrect true a x = pmod360 (x - a + 360)) ∧
    (∀ (a : ℚ) (n : String) (r : ℚ × ℚ × ℚ),
      (processBody true a n r).motion_status =
        motionStatus n
          (foldDelta (pmod360 (sidCorrect true a (pmod360 r.1) -
            sidCorrect true a (pmod360 r.2.1))))
          (foldDelta (pmod360 (sidCorrect true a (pmod360 r.2.2) -
            sidCorrect true a (pmod360 r.1)))) ∧
      (processBody true a n r).daily_motion =
        some ((foldDelta (pmod360 (sidCorrect true a (pmod360 r.1) -
            sidCorrect true a (pmod360 r.2.1))) +
          foldDelta (pmod360 (sidCorrect true a (pmod360 r.2.2) -
            sidCorrect true a (pmod360 r.1)))) / 2)) := by
  refine ⟨?_, ?_, ?_, ?_, ?_⟩
  · rw [calculate_fagan_allen_ayanamsa]
    norm_num
  · rw [calculate_fagan_allen_ayanamsa]
    norm_num
  · intro a e hc a0 m0 p hp tl htl
    cases hc with
    | false =>
      rcases mem_utc_false_cases true a e a0 m0 p hp with
        rfl|rfl|rfl|rfl|rfl|rfl|rfl|rfl|rfl|rfl <;>
        · simp only [processBody_tropical, if_true, Option.some.injEq] at htl
          simp only [processBody_longitude, if_true]
          rw [← htl]
    | true =>
      rcases mem_utc_cases true a e a0 m0 p hp with
        rfl|rfl|rfl|rfl|rfl|rfl|rfl|rfl|rfl|rfl|rfl|rfl|rfl|rfl|rfl|rfl <;>
        first
        | (simp only [processBody_tropical, if_true, Option.some.injEq] at htl
           simp only [processBody_longitude, if_true]
           rw [← htl]
           done)
        | (simp only [anglePosition_tropical, if_true, Option.some.injEq] at htl
           simp only [anglePosition_longitude, ascVal, if_true]
           rw [← htl]
           done)
        | (simp only [anglePosition_tropical, if_true, Option.some.injEq] at htl
           simp only [anglePosition_longitude, ascVal, if_true]
           rw [← htl]
           exact sid_shift a _)
        | (simp only [partPosition_tropical] at htl
           exact absurd htl (by simp))
  · intro a x
    rw [sidCorrect, if_pos rfl]
  · intro a n r
    exact ⟨rfl, rfl⟩

/-- C1 amended: the sidereal fields are present on a Position iff sidereal
mode was requested and the Position is not a Part of Fortune or Part of
Spirit; the two Parts never carry them, so a sidereal chart with coordinates
mixes Positions with and without the fields. -/
theorem C1_sidereal_fields_amended :
    (∀ (u : Bool) (a : ℚ) (e : String → ℚ × ℚ × ℚ) (hc : Bool) (a0 m0 : ℚ),
      ∀ p ∈ calculate_positions_with_utc u a e hc a0 m0,
        ((p.tropical_longitude ≠ none ∨ p.tropical_sign ≠ none) ↔
          (u = true ∧ p.name ≠ "PARTE_FORTUNA" ∧ p.name ≠ "PARTE_ESPIRITU"))) ∧
    (∀ (u : Bool) (a d : ℚ) (hc : Bool) (a0 m0 : ℚ),
      ∀ p ∈ calculate_positions_simulated u a d hc a0 m0,
        ((p.tropical_longitude ≠ none ∨ p.tropical_sign ≠ none) ↔
          (u = true ∧ p.name ≠ "PARTE_FORTUNA" ∧ p.name ≠ "PARTE_ESPIRITU"))) := by
  constructor
  · intro u a e hc a0 m0 p hp
    cases hc with
    | false =>
      rcases mem_utc_false_cases u a e a0 m0 p hp with
        rfl|rfl|rfl|rfl|rfl|rfl|rfl|rfl|rfl|rfl <;> cases u <;>
        simp [processBody_tropical, processBody_tropical_sign, processBody_name]
    | true =>
      rcases mem_utc_cases u a e a0 m0 p hp with
        rfl|rfl|rfl|rfl|rfl|rfl|rfl|rfl|rfl|rfl|rfl|rfl|rfl|rfl|rfl|rfl <;> cases u <;>
        simp [processBody_tropical, processBody_tropical_sign, processBody_name,
          anglePosition_tropical, anglePosition_tropical_sign, anglePosition_name,
          partPosition_tropical, partPosition_tropical_sign, partPosition_name]
  · intro u a d hc a0 m0 p hp
    cases hc with
    | false =>
      rcases mem_sim_false_cases u a d a0 m0 p hp with
        rfl|rfl|rfl|rfl|rfl|rfl|rfl|rfl|rfl|rfl <;> cases u <;>
        simp [simulatedPlanet_tropical, simulatedPlanet_tropical_sign, simulatedPlanet_name]
    | true =>
      rcases mem_sim_cases u a d a0 m0 p hp with
        rfl|rfl|rfl|rfl|rfl|rfl|rfl|rfl|rfl|rfl|rfl|rfl|rfl|rfl|rfl|rfl <;> cases u <;>
        simp [simulatedPlanet_tropical, simulatedPlanet_tropical_sign, simulatedPlanet_name,
          anglePosition_tropical, anglePosition_tropical_sign, anglePosition_name,
          partPosition_tropical, partPosition_tropical_sign, partPosition_name]

/-- C1 counterexample: in a concrete sidereal chart with coordinates, not
every Position carries the sidereal fields - the Part of Fortune entry has
neither tropical_longitude nor tropical_sign. -/
theorem C1_sidereal_fields_counterexample :
    ¬ (∀ p ∈ calculate_positions_with_utc true 24 (fun _ => (0, 0, 0)) true 10 20,
        p.tropical_longitude ≠ none ∧ p.tropical_sign ≠ none) := by
  intro h
  have hm : partPosition "PARTE_FORTUNA"
      (parteFortunaVal (processBody true 24 "SOL" ((fun _ => ((0 : ℚ), (0 : ℚ), (0 : ℚ))) "SOL")).longitude
        (processBody true 24 "LUNA" ((fun _ => ((0 : ℚ), (0 : ℚ), (0 : ℚ))) "LUNA")).longitude
        (ascVal true 24 10))
      ∈ calculate_positions_with_utc true 24 (fun _ => (0, 0, 0)) true 10 20 := by
    rw [calc_utc_true_eq]
    simp
  exact (h _ hm).1 rfl

lemma arc_exists (l : ℚ) (h0 : 0 ≤ l) (h1 : l < 360) : ∃ e ∈ signsTable, inArc l e := by
  by_cases c1 : l < 30
  · exact ⟨("ARIES", 354, 36), by simp [signsTable], Or.inr ⟨by norm_num, by dsimp only; linarith⟩⟩
  by_cases c2 : l < 60
  · exact ⟨("TAURO", 30, 30), by simp [signsTable], Or.inl ⟨not_lt.mp c1, by dsimp only; linarith⟩⟩
  by_cases c3 : l < 90
  · exact ⟨("GÉMINIS", 60, 30), by simp [signsTable], Or.inl ⟨not_lt.mp c2, by dsimp only; linarith⟩⟩
  by_cases c4 : l < 120
  · exact ⟨("CÁNCER", 90, 30), by simp [signsTable], Or.inl ⟨not_lt.mp c3, by dsimp only; linarith⟩⟩
  by_cases c5 : l < 150
  · exact ⟨("LEO", 120, 30), by simp [signsTable], Or.inl ⟨not_lt.mp c4, by dsimp only; linarith⟩⟩
  by_cases c6 : l < 186
  · exact ⟨("VIRGO", 150, 36), by simp [signsTable], Or.inl ⟨not_lt.mp c5, by dsimp only; linarith⟩⟩
  by_cases c7 : l < 210
  · exact ⟨("LIBRA", 186, 24), by simp [signsTable], Or.inl ⟨not_lt.mp c6, by dsimp only; linarith⟩⟩
  by_cases c8 : l < 240
  · exact ⟨("ESCORPIO", 210, 30), by simp [signsTable], Or.inl ⟨not_lt.mp c7, by dsimp only; linarith⟩⟩
  by_cases c9 : l < 252
  · exact ⟨("OFIUCO", 240, 12), by simp [signsTable], Or.inl ⟨not_lt.mp c8, by dsimp only; linarith⟩⟩
  by_cases c10 : l < 270
  · exact ⟨("SAGITARIO", 252, 18), by simp [signsTable], Or.inl ⟨not_lt.mp c9, by dsimp only; linarith⟩⟩
  by_cases c11 : l < 306
  · exact ⟨("CAPRICORNIO", 270, 36), by simp [signsTable], Or.inl ⟨not_lt.mp c10, by dsimp only; linarith⟩⟩
  by_cases c12 : l < 324
  · exact ⟨("ACUARIO", 306, 18), by simp [signsTable], Or.inl ⟨not_lt.mp c11, by dsimp only; linarith⟩⟩
  by_cases c13 : l < 330
  · exact ⟨("PEGASO", 324, 6), by simp [signsTable], Or.inl ⟨not_lt.mp c12, by dsimp only; linarith⟩⟩
  by_cases c14 : l < 354
  · exact ⟨("PISCIS", 330, 24), by simp [signsTable], Or.inl ⟨not_lt.mp c13, by dsimp only; linarith⟩⟩
  · exact ⟨("ARIES", 354, 36), by simp [signsTable], Or.inl ⟨not_lt.mp c14, by dsimp only; linarith⟩⟩

lemma arc_disjoint (l : ℚ) (h0 : 0 ≤ l) (h1 : l < 360) :
    ∀ e1 ∈ signsTable, ∀ e2 ∈ signsTable, inArc l e1 → inArc l e2 → e1 = e2 := by
  intro e1 h1m e2 h2m hi1 hi2
  fin_cases h1m <;> fin_cases h2m <;>
    first
    | rfl
    | (exfalso
       rcases hi1 with ⟨a1, b1⟩ | ⟨a1, b1⟩ <;> rcases hi2 with ⟨a2, b2⟩ | ⟨a2, b2⟩ <;>
         norm_num at a1 b1 a2 b2 <;> linarith)

lemma arcTest_iff (l : ℚ) (e : String × ℚ × ℚ) :
    arcTest l e = true ↔
      ((e.2.1 ≤ l ∧ l < e.2.1 + e.2.2) ∨
        (354 < e.2.1 ∧ (e.2.1 ≤ l ∨ l < pmod360 (e.2.1 + e.2.2)))) := by
  simp [arcTest]

lemma arcTest_low_false (l : ℚ) (h0 : 0 ≤ l) (h1 : l < 30) :
    ∀ e ∈ signsTable, arcTest l e = false := by
  intro e he
  cases harc : arcTest l e with
  | false => rfl
  | true =>
    exfalso
    rw [arcTest_iff] at harc
    fin_cases he <;>
      (rcases harc with ⟨a1, b1⟩ | ⟨c1, -⟩
       · dsimp only at a1 b1; linarith
       · dsimp only at c1; linarith)

lemma arcTest_exists_of_ge30 (l : ℚ) (h30 : 30 ≤ l) (h1 : l < 360) :
    ∃ e ∈ signsTable, arcTest l e = true := by
  by_cases c2 : l < 60
  · exact ⟨("TAURO", 30, 30), by simp [signsTable],
      (arcTest_iff l _).mpr (Or.inl ⟨by dsimp only; linarith, by dsimp only; linarith⟩)⟩
  by_cases c3 : l < 90
  · exact ⟨("GÉMINIS", 60, 30), by simp [signsTable],
      (arcTest_iff l _).mpr (Or.inl ⟨by dsimp only; linarith, by dsimp only; linarith⟩)⟩
  by_cases c4 : l < 120
  · exact ⟨("CÁNCER", 90, 30), by simp [signsTable],
      (arcTest_iff l _).mpr (Or.inl ⟨by dsimp only; linarith, by dsimp only; linarith⟩)⟩
  by_cases c5 : l < 150
  · exact ⟨("LEO", 120, 30), by simp [signsTable],
      (arcTest_iff l _).mpr (Or.inl ⟨by dsimp only; linarith, by dsimp only; linarith⟩)⟩
  by_cases c6 : l < 186
  · exact ⟨("VIRGO", 150, 36), by simp [signsTable],
      (arcTest_iff l _).mpr (Or.inl ⟨by dsimp only; linarith, by dsimp only; linarith⟩)⟩
  by_cases c7 : l < 210
  · exact ⟨("LIBRA", 186, 24), by simp [signsTable],
      (arcTest_iff l _).mpr (Or.inl ⟨by dsimp only; linarith, by dsimp only; linarith⟩)⟩
  by_cases c8 : l < 240
  · exact ⟨("ESCORPIO", 210, 30), by simp [signsTable],
      (arcTest_iff l _).mpr (Or.inl ⟨by dsimp only; linarith, by dsimp only; linarith⟩)⟩
  by_cases c9 : l < 252
  · exact ⟨("OFIUCO", 240, 12), by simp [signsTable],
      (arcTest_iff l _).mpr (Or.inl ⟨by dsimp only; linarith, by dsimp only; linarith⟩)⟩
  by_cases c10 : l < 270
  · exact ⟨("SAGITARIO", 252, 18), by simp [signsTable],
      (arcTest_iff l _).mpr (Or.inl ⟨by dsimp only; linarith, by dsimp only; linarith⟩)⟩
  by_cases c11 : l < 306
  · exact ⟨("CAPRICORNIO", 270, 36), by simp [signsTable],
      (arcTest_iff l _).mpr (Or.inl ⟨by dsimp only; linarith, by dsimp only; linarith⟩)⟩
  by_cases c12 : l < 324
  · exact ⟨("ACUARIO", 306, 18), by simp [signsTable],
      (arcTest_iff l _).mpr (Or.inl ⟨by dsimp only; linarith, by dsimp only; linarith⟩)⟩
  by_cases c13 : l < 330
  · exact ⟨("PEGASO", 324, 6), by simp [signsTable],
      (arcTest_iff l _).mpr (Or.inl ⟨by dsimp only; linarith, by dsimp only; linarith⟩)⟩
  by_cases c14 : l < 354
  · exact ⟨("PISCIS", 330, 24), by simp [signsTable],
      (arcTest_iff l _).mpr (Or.inl ⟨by dsimp only; linarith, by dsimp only; linarith⟩)⟩
  · exact ⟨("ARIES", 354, 36), by simp [signsTable],
      (arcTest_iff l _).mpr (Or.inl ⟨by dsimp only; linarith, by dsimp only; linarith⟩)⟩

lemma get_sign_go_default (l : ℚ) (L : List (String × ℚ × ℚ))
    (h : ∀ e ∈ L, arcTest l e = false) : get_sign_go l L = "ARIES" := by
  induction L with
  | nil => rfl
  | cons e rest ih =>
    have hstep : get_sign_go l (e :: rest) =
        if arcTest l e then e.1 else get_sign_go l rest := rfl
    rw [hstep, h e (List.mem_cons_self e rest)]
    simp only [Bool.false_eq_true, if_false]
    exact ih (fun x hx => h x (List.mem_cons_of_mem e hx))

lemma get_sign_low (l : ℚ) (h0 : 0 ≤ l) (h1 : l < 30) : get_sign l = "ARIES" := by
  rw [get_sign, pmod360_eq_self h0 (by linarith)]
  exact get_sign_go_default l signsTable (arcTest_low_false l h0 h1)

/-- C3 amended: the 14 arcs do partition [0, 360) exactly, but the
resolution loop of get_sign matches an arc exactly for longitudes at or
above 30 degrees: the explicit wraparound test requires start > 354 and the
wrap arc starts at exactly 354, so for longitudes in [0, 30) no arc matches
and the deterministic default "ARIES" is returned, which is reachable there
(and agrees with the arc the partition assigns). -/
theorem C3_partition_and_default_reachability :
    (∀ l : ℚ, 0 ≤ l → l < 360 → ∃! e, e ∈ signsTable ∧ inArc l e) ∧
    (∀ l : ℚ, 0 ≤ l → l < 360 →
      ((∃ e ∈ signsTable, arcTest l e = true) ↔ 30 ≤ l)) ∧
    (∀ l : ℚ, 0 ≤ l → l < 30 → get_sign l = "ARIES") := by
  refine ⟨?_, ?_, get_sign_low⟩
  · intro l h0 h1
    obtain ⟨e, he, hin⟩ := arc_exists l h0 h1
    exact ⟨e, ⟨he, hin⟩, fun e2 h2 => arc_disjoint l h0 h1 e2 h2.1 e he h2.2 hin⟩
  · intro l h0 h1
    constructor
    · rintro ⟨e, he, ht⟩
      by_contra hlt
      rw [arcTest_low_false l h0 (not_le.mp hlt) e he] at ht
      exact absurd ht (by simp)
    · intro h30
      exact arcTest_exists_of_ge30 l h30 h1

/-- C3 counterexample: at longitude 10 no entry of the table passes the
resolution-loop test (the direct interval test or the wraparound test), so
the deterministic default return of get_sign is reached; the claim that the
default is unreachable is false. -/
theorem C3_default_reachable_counterexample :
    signsTable.all (fun e => !arcTest 10 e) = true ∧ get_sign 10 = "ARIES" := by
  constructor
  · norm_num [signsTable, arcTest, pmod360_def]
  · norm_num [get_sign, get_sign_go, signsTable, arcTest, pmod360_def]

theorem C1_sidereal_fields_amended_witness :
    (processBody true 24 "SOL" (0, 0, 0)).tropical_longitude ≠ none ∨
      (processBody true 24 "SOL" (0, 0, 0)).tropical_sign ≠ none := by
  exact (C1_sidereal_fields_amended.1 true 24 (fun _ => (0, 0, 0)) true 10 20
    (processBody true 24 "SOL" (0, 0, 0)) (by rw [calc_utc_true_eq]; simp)).mpr
    (by refine ⟨rfl, ?_, ?_⟩ <;> simp [processBody_name])

theorem C2_ayanamsa_and_sidereal_correction_witness :
    (processBody true 24 "SOL" (0, 0, 0)).longitude = pmod360 (pmod360 0 - 24 + 360) := by
  exact C2_ayanamsa_and_sidereal_correction.2.2.1 24 (fun _ => (0, 0, 0)) true 10 20
    (processBody true 24 "SOL" (0, 0, 0)) (by rw [calc_utc_true_eq]; simp)
    (pmod360 0) rfl

theorem C3_partition_and_default_reachability_witness : get_sign 5 = "ARIES" :=
  C3_partition_and_default_reachability.2.2 5 (by norm_num) (by norm_num)

theorem C5_motion_states_witness : motionStatus "MARTE" (-1) (-1) = "retrograde" := by
  refine (C5_motion_states.1 "MARTE" (-1) (-1) (by decide) (by decide)).1
    (by norm_num) (by norm_num) ?_ ?_ <;>
    rw [abs_of_neg (by norm_num : (-1 : ℚ) < 0)] <;> norm_num

theorem C6_dsc_ic_opposition_witness :
    ({ name := "DSC", longitude := 180, sign := "LIBRA", motion_status := "direct" } : Position).longitude =
      pmod360 (({ name := "ASC", longitude := 0, sign := "ARIES", motion_status := "direct" } : Position).longitude + 180) := by
  exact (C6_dsc_ic_opposition.2.2
    { name := "ASC", longitude := 0, sign := "ARIES", motion_status := "direct" }
    { name := "DSC", longitude := 180, sign := "LIBRA", motion_status := "direct" }
    { name := "MC", longitude := 270, sign := "CAPRICORNIO", motion_status := "direct" }
    { name := "IC", longitude := 90, sign := "CÁNCER", motion_status := "direct" }
    (by simp [fallback_positions]) (by simp [fallback_positions])
    (by simp [fallback_positions]) (by simp [fallback_positions])
    rfl rfl rfl rfl).1

theorem C7_parts_fortune_spirit_witness :
    (partPosition "PARTE_FORTUNA"
      (parteFortunaVal (processBody false 0 "SOL" (0, 0, 0)).longitude
        (processBody false 0 "LUNA" (0, 0, 0)).longitude (ascVal false 0 10))).longitude =
      if is_dry_birth (processBody false 0 "SOL" (0, 0, 0)).longitude
          (anglePosition false "ASC" (ascVal false 0 10) 10).longitude then
        pmod360 ((anglePosition false "ASC" (ascVal false 0 10) 10).longitude +
          pmod360 ((processBody false 0 "LUNA" (0, 0, 0)).longitude -
            (processBody false 0 "SOL" (0, 0, 0)).longitude))
      else
        pmod360 ((anglePosition false "ASC" (ascVal false 0 10) 10).longitude +
          pmod360 ((processBody false 0 "SOL" (0, 0, 0)).longitude -
            (processBody false 0 "LUNA" (0, 0, 0)).longitude)) := by
  exact (C7_parts_fortune_spirit.2.2.2 false 0 (fun _ => (0, 0, 0)) 10 20
    (partPosition "PARTE_FORTUNA"
      (parteFortunaVal (processBody false 0 "SOL" (0, 0, 0)).longitude
        (processBody false 0 "LUNA" (0, 0, 0)).longitude (ascVal false 0 10)))
    (partPosition "PARTE_ESPIRITU"
      (parteEspirituVal (processBody false 0 "SOL" (0, 0, 0)).longitude
        (processBody false 0 "LUNA" (0, 0, 0)).longitude (ascVal false 0 10)))
    (processBody false 0 "SOL" (0, 0, 0))
    (processBody false 0 "LUNA" (0, 0, 0))
    (anglePosition false "ASC" (ascVal false 0 10) 10)
    (by rw [calc_utc_true_eq]; simp) (by rw [calc_utc_true_eq]; simp)
    (by rw [calc_utc_true_eq]; simp) (by rw [calc_utc_true_eq]; simp)
    (by rw [calc_utc_true_eq]; simp)
    rfl rfl rfl rfl rfl).1

theorem C9_dst_spain_eras_witness :
    (1970 : ℤ) < 1974 ∧ determinar_horario_verano 1970 6 1 "norte" "Spain" = false :=
  ⟨by norm_num, C9_dst_spain_eras.1 1970 6 1 "norte" (by norm_num)⟩

theorem C10_dignity_total_precedence_witness :
    calcular_dignidad_planetaria "SOL" "LEO" = "exaltacion" := by
  have h := ((C10_dignity_total_precedence.1 "SOL" "LEO").2.1
    ⟨["ESCORPIO", "GÉMINIS", "PEGASO"],
     ["LEO", "ARIES", "CAPRICORNIO", "VIRGO"],
     ["CÁNCER", "PISCIS", "LIBRA", "ACUARIO", "OFIUCO"],
     ["TAURO", "SAGITARIO"]⟩ rfl).2.1
  exact h (by decide) (by decide)
